import Mathlib

/-!
Verification development for the suspicious-activity-detector risk engine.

The Python source is shallowly embedded: every class becomes a structure,
every method a pure function that returns its result together with the
updated state.  Python `dict` / `defaultdict` values are modelled as
association lists that keep insertion order (as CPython dicts do);
Python `set`s of strings are modelled as duplicate-free lists in
first-insertion order.  Python `float` arithmetic is idealised to exact
rational arithmetic over `ℚ` (a float literal such as `0.01` is read as
the rational `1/100`); timestamps and timedeltas are rationals measured
in seconds.  The only genuinely irrational operation in the source,
`x ** 0.5`, is modelled by `ratSqrt`, a rational floor approximation of
the real square root that is exact on perfect squares — in particular on
`0` and `1`, the only radicands reached by the concrete runs below.
-/

/-! ## Association-list dictionaries (CPython `dict` semantics) -/

/-- Look a key up in an insertion-ordered association list. -/
def getKey? {α : Type} (m : List (String × α)) (k : String) : Option α :=
  match m with
  | [] => none
  | (k', v) :: rest => if k' = k then some v else getKey? rest k

/-- Lookup with a default value (Python `dict.get(k, d)` / `defaultdict` read). -/
def getKeyD {α : Type} (m : List (String × α)) (k : String) (d : α) : α :=
  (getKey? m k).getD d

/-- Python `m[k] = v`: overwrite in place if the key exists, else append. -/
def setKey {α : Type} (m : List (String × α)) (k : String) (v : α) : List (String × α) :=
  match m with
  | [] => [(k, v)]
  | (k', v') :: rest => if k' = k then (k, v) :: rest else (k', v') :: setKey rest k v

/-- Python `m.pop(k, None)`: drop the entry for `k`, silently if absent. -/
def popKey {α : Type} (m : List (String × α)) (k : String) : List (String × α) :=
  match m with
  | [] => []
  | (k', v') :: rest => if k' = k then popKey rest k else (k', v') :: popKey rest k

/-- Python `m.setdefault(k, d)`: return the stored value (inserting `d` if absent)
together with the updated mapping. -/
def setdefaultKey {α : Type} (m : List (String × α)) (k : String) (d : α) :
    α × List (String × α) :=
  match getKey? m k with
  | some v => (v, m)
  | none => (d, m ++ [(k, d)])

/-- Python `set.add` on a set modelled as a duplicate-free list. -/
def addElem (s : List String) (x : String) : List String :=
  if s.contains x then s else s ++ [x]

/-- Python `dict.fromkeys(l)` key list: deduplicate preserving first-seen order. -/
def orderedUnique (l : List String) : List String :=
  l.foldl addElem []

/-- Turn an optional signal into a zero- or one-element list. -/
def optToList {α : Type} : Option α → List α
  | none => []
  | some s => [s]

/-! ## SHA-256 (the `hashlib.sha256(...).hexdigest()` call of the fingerprinter) -/

/-- Reduce modulo 2^32. -/
def w32 (n : Nat) : Nat := n % 4294967296

/-- Rotate a 32-bit word right by `n` bits. -/
def rotr32 (x n : Nat) : Nat := w32 ((x >>> n) ||| (x <<< (32 - n)))

/-- Render a natural number as `k` bytes, most significant first. -/
def bytesBE : Nat → Nat → List Nat
  | 0, _ => []
  | k + 1, v => bytesBE k (v / 256) ++ [v % 256]

/-- The UTF-8 encoding of one Unicode code point (Python `str.encode()`). -/
def utf8Encode (c : Nat) : List Nat :=
  if c < 128 then [c]
  else if c < 2048 then [192 ||| (c >>> 6), 128 ||| (c &&& 63)]
  else if c < 65536 then
    [224 ||| (c >>> 12), 128 ||| ((c >>> 6) &&& 63), 128 ||| (c &&& 63)]
  else
    [240 ||| (c >>> 18), 128 ||| ((c >>> 12) &&& 63),
     128 ||| ((c >>> 6) &&& 63), 128 ||| (c &&& 63)]

/-- The UTF-8 bytes of a string. -/
def strBytes (s : String) : List Nat :=
  (s.data.map (fun ch => utf8Encode ch.toNat)).flatten

/-- The SHA-256 round constants. -/
def sha256K : List Nat :=
  [1116352408, 1899447441, 3049323471, 3921009573, 961987163, 1508970993,
   2453635748, 2870763221, 3624381080, 310598401, 607225278, 1426881987,
   1925078388, 2162078206, 2614888103, 3248222580, 3835390401, 4022224774,
   264347078, 604807628, 770255983, 1249150122, 1555081692, 1996064986,
   2554220882, 2821834349, 2952996808, 3210313671, 3336571891, 3584528711,
   113926993, 338241895, 666307205, 773529912, 1294757372, 1396182291,
   1695183700, 1986661051, 2177026350, 2456956037, 2730485921, 2820302411,
   3259730800, 3345764771, 3516065817, 3600352804, 4094571909, 275423344,
   430227734, 506948616, 659060556, 883997877, 958139571, 1322822218,
   1537002063, 1747873779, 1955562222, 2024104815, 2227730452, 2361852424,
   2428436474, 2756734187, 3204031479, 3329325298]

/-- The SHA-256 initial hash value. -/
def sha256H0 : List Nat :=
  [1779033703, 3144134277, 1013904242, 2773480762,
   1359893119, 2600822924, 528734635, 1541459225]

/-- The padding step of SHA-256: append `0x80`, zeros, and the 64-bit bit length. -/
def sha256Pad (msg : List Nat) : List Nat :=
  let len := msg.length
  let padZeros := (119 - len % 64) % 64
  msg ++ [128] ++ List.replicate padZeros 0 ++ bytesBE 8 (len * 8)

/-- Split a byte list into 64-byte blocks. -/
def chunksOf64 : List Nat → List (List Nat)
  | [] => []
  | x :: rest => ((x :: rest).take 64) :: chunksOf64 ((x :: rest).drop 64)
termination_by l => l.length
decreasing_by simp [List.length_drop]; omega

/-- Pack bytes into 32-bit big-endian words. -/
def wordsOfChunk : List Nat → List Nat
  | b0 :: b1 :: b2 :: b3 :: rest =>
    (((b0 * 256 + b1) * 256 + b2) * 256 + b3) :: wordsOfChunk rest
  | _ => []

/-- Message-schedule sigma functions. -/
def smallSigma0 (x : Nat) : Nat := rotr32 x 7 ^^^ rotr32 x 18 ^^^ (x >>> 3)

/-- Second message-schedule sigma function. -/
def smallSigma1 (x : Nat) : Nat := rotr32 x 17 ^^^ rotr32 x 19 ^^^ (x >>> 10)

/-- Append the next message-schedule word. -/
def scheduleStep (w : List Nat) : List Nat :=
  let n := w.length
  w ++ [w32 (smallSigma1 (w.getD (n - 2) 0) + w.getD (n - 7) 0 +
             smallSigma0 (w.getD (n - 15) 0) + w.getD (n - 16) 0)]

/-- Iterate `scheduleStep`. -/
def buildSchedule (w : List Nat) : Nat → List Nat
  | 0 => w
  | k + 1 => buildSchedule (scheduleStep w) k

/-- Compression sigma functions. -/
def bigSigma0 (x : Nat) : Nat := rotr32 x 2 ^^^ rotr32 x 13 ^^^ rotr32 x 22

/-- Second compression sigma function. -/
def bigSigma1 (x : Nat) : Nat := rotr32 x 6 ^^^ rotr32 x 11 ^^^ rotr32 x 25

/-- The SHA-256 choice function. -/
def chooseF (x y z : Nat) : Nat := (x &&& y) ^^^ ((x ^^^ 4294967295) &&& z)

/-- The SHA-256 majority function. -/
def majF (x y z : Nat) : Nat := (x &&& y) ^^^ (x &&& z) ^^^ (y &&& z)

/-- One round of the SHA-256 compression function on the 8-word state. -/
def compressStep (st : List Nat) (k wi : Nat) : List Nat :=
  match st with
  | [a, b, c, d, e, f, g, h] =>
    let t1 := w32 (h + bigSigma1 e + chooseF e f g + k + wi)
    let t2 := w32 (bigSigma0 a + majF a b c)
    [w32 (t1 + t2), a, b, c, w32 (d + t1), e, f, g]
  | other => other

/-- Compress one 64-byte chunk into the running hash state. -/
def sha256Compress (h : List Nat) (chunk : List Nat) : List Nat :=
  let w := buildSchedule (wordsOfChunk chunk) 48
  let st := (List.zip sha256K w).foldl (fun acc kw => compressStep acc kw.1 kw.2) h
  List.zipWith (fun x y => w32 (x + y)) h st

/-- The SHA-256 digest of a byte list, as 32 bytes. -/
def sha256Bytes (msg : List Nat) : List Nat :=
  let blocks := chunksOf64 (sha256Pad msg)
  let hfin := blocks.foldl sha256Compress sha256H0
  hfin.foldr (fun wrd acc => bytesBE 4 wrd ++ acc) []

/-- Lowercase hexadecimal digit. -/
def hexDigit (n : Nat) : Char :=
  if n < 10 then Char.ofNat (48 + n) else Char.ofNat (87 + n)

/-- Lowercase hexadecimal rendering of a byte list. -/
def bytesToHex (bs : List Nat) : String :=
  String.mk (bs.foldr (fun b acc => hexDigit (b / 16) :: hexDigit (b % 16) :: acc) [])

/-- Lowercase-hex SHA-256 digest, as produced by `hashlib.sha256(x).hexdigest()`. -/
def sha256Hex (msg : List Nat) : String := bytesToHex (sha256Bytes msg)

/-! ## Rational square-root approximation -/

/-- Floor approximation of the real square root on ℚ (used for `x ** 0.5`).
Exact whenever numerator and denominator are perfect squares; in particular
`ratSqrt 0 = 0` and `ratSqrt 1 = 1`, the only values reached by the
concrete runs in this development. -/
def ratSqrt (q : ℚ) : ℚ := (Nat.sqrt q.num.toNat : ℚ) / (Nat.sqrt q.den : ℚ)

/-! ## Data model (`models.py`) -/

/-- One observed request (`ActivityEvent`, `models.py`).  The opaque
`metadata` mapping is never read by the engine and is omitted. -/
structure ActivityEvent where
  timestamp : ℚ
  endpoint : String
  method : String
  status_code : Int
  latency_ms : ℚ
  bytes_in : Int
  bytes_out : Int
  service : String
  trace_id : String
deriving DecidableEq, Repr

/-- Actor making the request (`IdentityContext`, `models.py`). -/
structure IdentityContext where
  user_id : String
  device_id : String
  ip : String
  geo : String
  user_agent : String
  session_id : Option String
  roles : List String
  privileges : List String
  timestamp : ℚ
deriving DecidableEq, Repr

/-- Atomic role/privilege delta (`PrivilegeChange`, `models.py`). -/
structure PrivilegeChange where
  previous_roles : List String
  new_roles : List String
  previous_privileges : List String
  new_privileges : List String
  timestamp : ℚ
deriving DecidableEq, Repr

/-- One detector finding (`RiskSignal`, `models.py`).  The human-readable
`detail` strings are kept but without the interpolated numbers of the
source f-strings. -/
structure RiskSignal where
  name : String
  score : ℚ
  detail : String
deriving DecidableEq, Repr

/-- Engine output (`RiskAssessment`, `models.py`). -/
structure RiskAssessment where
  total_score : ℚ
  signals : List RiskSignal
  action : String
  account_frozen : Bool := false
  session_invalidated : Bool := false
deriving DecidableEq, Repr

/-- Welford running statistics for a scalar (`TimingStats`, `models.py`). -/
structure TimingStats where
  count : Nat := 0
  mean : ℚ := 0
  m2 : ℚ := 0
deriving DecidableEq, Repr

/-- Welford update (`TimingStats.update`). -/
def TimingStats.update (s : TimingStats) (value : ℚ) : TimingStats :=
  let count := s.count + 1
  let delta := value - s.mean
  let mean := s.mean + delta / (count : ℚ)
  let delta2 := value - mean
  { count := count, mean := mean, m2 := s.m2 + delta * delta2 }

/-- Sample variance (`TimingStats.variance`): 0 when fewer than two samples. -/
def TimingStats.variance (s : TimingStats) : ℚ :=
  if s.count < 2 then 0 else s.m2 / ((s.count - 1 : Nat) : ℚ)

/-- Sample standard deviation (`TimingStats.stddev`, `variance ** 0.5`). -/
def TimingStats.stddev (s : TimingStats) : ℚ := ratSqrt s.variance

/-- One session record (`SessionState`, `models.py`). -/
structure SessionState where
  session_id : String
  device_id : String
  created_at : ℚ
  last_seen : ℚ
  ip : String
deriving DecidableEq, Repr

/-- Per-user account state (`AccountState`, `models.py`). -/
structure AccountState where
  user_id : String
  sessions : List (String × SessionState) := []
  frozen : Bool := false
  privilege_history : List PrivilegeChange := []
  last_fingerprint : Option String := none
deriving DecidableEq, Repr

/-- Upsert a session and remember its device (`AccountState.update_session`). -/
def AccountState.update_session (a : AccountState) (session : SessionState) : AccountState :=
  { a with sessions := setKey a.sessions session.session_id session,
           last_fingerprint := some session.device_id }

/-- Remove a session, silently tolerating a missing key
(`AccountState.expire_session`, `sessions.pop(session_id, None)`). -/
def AccountState.expire_session (a : AccountState) (session_id : String) : AccountState :=
  { a with sessions := popKey a.sessions session_id }

/-- Python string truthiness: `s or d` where `s` is an optional string. -/
def pyOr (s : Option String) (d : String) : String :=
  match s with
  | none => d
  | some v => if v = "" then d else v

/-! ## Configuration (`config.py`) -/

/-- Engine configuration with its defaults (`EngineConfig`).  The two
timedelta options are in seconds: 24 h = 86400 s, 6 h = 21600 s. -/
structure EngineConfig where
  high_risk_threshold : ℚ := 85
  medium_risk_threshold : ℚ := 60
  sequence_window : Nat := 10
  behavior_window : ℚ := 86400
  timing_sigma_threshold : ℚ := 3
  privilege_drift_threshold : Nat := 3
  multi_actor_window : ℚ := 21600
  pivot_depth_threshold : Nat := 4
  attack_prediction_contamination : ℚ := 8 / 100
  attack_prediction_score_multiplier : ℚ := 100
deriving DecidableEq, Repr

/-- Threshold the total score into an action (`EngineConfig.evaluate_action`). -/
def EngineConfig.evaluate_action (c : EngineConfig) (risk_score : ℚ) : String :=
  if risk_score ≥ c.high_risk_threshold then "freeze_account"
  else if risk_score ≥ c.medium_risk_threshold then "force_logout"
  else "monitor"

/-! ## Fingerprinter (`fingerprinting.py`) -/

/-- State of the identity fingerprinter (`IdentityFingerprinter`). -/
structure IdentityFingerprinter where
  multi_actor_window : ℚ
  recent_fingerprints : List (String × (String × ℚ)) := []
deriving DecidableEq, Repr

/-- Stable identity hash (`IdentityFingerprinter.fingerprint`):
SHA-256 over the five fields joined with a literal `|`, lowercase hex. -/
def IdentityFingerprinter.fingerprint (identity : IdentityContext) : String :=
  sha256Hex (strBytes (identity.device_id ++ "|" ++ identity.ip ++ "|" ++
    identity.geo ++ "|" ++ identity.user_agent ++ "|" ++ identity.user_id))

/-- Multi-actor detection (`IdentityFingerprinter.detect_multi_actor`). -/
def IdentityFingerprinter.detect_multi_actor (st : IdentityFingerprinter)
    (identity : IdentityContext) : Option RiskSignal × IdentityFingerprinter :=
  let fp := IdentityFingerprinter.fingerprint identity
  let previous := getKey? st.recent_fingerprints identity.user_id
  let recent' := setKey st.recent_fingerprints identity.user_id (fp, identity.timestamp)
  let sig : Option RiskSignal :=
    match previous with
    | none => none
    | some prev =>
      if prev.1 ≠ fp ∧ identity.timestamp - prev.2 ≤ st.multi_actor_window then
        some { name := "multi_actor_detection", score := 25,
               detail := "Account used from multiple distinct fingerprints within a short window" }
      else none
  (sig, { st with recent_fingerprints := recent' })

/-! ## Behavior analyzer (`behavior_analyzer.py`) -/

/-- Counter increment (`Counter[k] += 1`). -/
def counterIncr (c : List (String × Int)) (k : String) : List (String × Int) :=
  setKey c k (getKeyD c k 0 + 1)

/-- Counter decrement followed by deletion of non-positive entries
(`counter[k] -= 1; if counter[k] <= 0: del counter[k]`). -/
def counterDecrDel (c : List (String × Int)) (k : String) : List (String × Int) :=
  let v := getKeyD c k 0 - 1
  let c' := setKey c k v
  if v ≤ 0 then popKey c' k else c'

/-- Per-user sliding window of events (`BehaviorProfile`). -/
structure BehaviorProfile where
  window : ℚ
  events : List ActivityEvent := []
  endpoint_counter : List (String × Int) := []
deriving DecidableEq, Repr

/-- The `while` loop of `BehaviorProfile._trim`: pop stale events from the
front, decrementing the endpoint multiset. -/
def trimLoop (window now : ℚ) :
    List ActivityEvent → List (String × Int) → List ActivityEvent × List (String × Int)
  | [], c => ([], c)
  | e :: rest, c =>
    if now - e.timestamp > window then trimLoop window now rest (counterDecrDel c e.endpoint)
    else (e :: rest, c)

/-- Observe one event (`BehaviorProfile.observe`): append, count, trim. -/
def BehaviorProfile.observe (p : BehaviorProfile) (event : ActivityEvent) : BehaviorProfile :=
  let events := p.events ++ [event]
  let counter := counterIncr p.endpoint_counter event.endpoint
  let trimmed := trimLoop p.window event.timestamp events counter
  { p with events := trimmed.1, endpoint_counter := trimmed.2 }

/-- Requests per second over the window (`BehaviorProfile.request_rate`),
with the window length floored at one second. -/
def BehaviorProfile.request_rate (p : BehaviorProfile) : ℚ :=
  match p.events with
  | [] => 0
  | e :: rest =>
    let lastE := List.getLastD rest e
    let window_seconds := max (lastE.timestamp - e.timestamp) 1
    ((e :: rest).length : ℚ) / window_seconds

/-- Share of the window taken by one endpoint (`BehaviorProfile.endpoint_skew`),
with the denominator floored at 1 (`sum(...) or 1`). -/
def BehaviorProfile.endpoint_skew (p : BehaviorProfile) (endpoint : String) : ℚ :=
  let s := (p.endpoint_counter.map (fun kv => kv.2)).sum
  let total : Int := if s = 0 then 1 else s
  ((getKeyD p.endpoint_counter endpoint 0 : Int) : ℚ) / (total : ℚ)

/-- Per-user behavior detector (`BehaviorAnomalyDetector`). -/
structure BehaviorAnomalyDetector where
  window : ℚ
  profiles : List (String × BehaviorProfile) := []
deriving DecidableEq, Repr

/-- One behavior assessment (`BehaviorAnomalyDetector.assess`). -/
def BehaviorAnomalyDetector.assess (d : BehaviorAnomalyDetector) (user_id : String)
    (event : ActivityEvent) : Option RiskSignal × BehaviorAnomalyDetector :=
  let got := setdefaultKey d.profiles user_id { window := d.window }
  let profile := got.1
  let rate_before := profile.request_rate
  let skew_before := profile.endpoint_skew event.endpoint
  let profile2 := profile.observe event
  let rate_after := profile2.request_rate
  let skew_after := profile2.endpoint_skew event.endpoint
  let surge := (rate_after - rate_before) / (rate_before + 1 / 100)
  let spike := skew_after - skew_before
  let sig : Option RiskSignal :=
    if surge > 2 then
      some { name := "behavior_rate_anomaly", score := min (20 * surge) 40,
             detail := "Request rate surged for user" }
    else if spike > 3 / 10 ∧ skew_after > 1 / 2 then
      some { name := "behavior_endpoint_anomaly", score := 25,
             detail := "Endpoint suddenly dominates traffic for user" }
    else none
  (sig, { d with profiles := setKey got.2 user_id profile2 })

/-- Summary view of a user's request rate (`BehaviorAnomalyDetector.volume_summary`);
the source wraps this rational in a one-key dict. -/
def BehaviorAnomalyDetector.volume_summary (d : BehaviorAnomalyDetector) (user_id : String) : ℚ :=
  match getKey? d.profiles user_id with
  | none => 0
  | some profile => profile.request_rate

/-! ## Sequence model (`sequence_model.py`) -/

/-- Per-user first-order endpoint transition model (`APISequenceModel`). -/
structure APISequenceModel where
  window : Nat
  transitions : List (String × List (String × Nat)) := []
  recent_paths : List (String × List String) := []
deriving DecidableEq, Repr

/-- Record a transition and extend the bounded path (`APISequenceModel.observe`). -/
def APISequenceModel.observe (m : APISequenceModel) (user_id : String)
    (event : ActivityEvent) : APISequenceModel :=
  let path := getKeyD m.recent_paths user_id []
  let transitions' :=
    match path.getLast? with
    | some prev =>
      let row := getKeyD m.transitions prev []
      setKey m.transitions prev (setKey row event.endpoint (getKeyD row event.endpoint 0 + 1))
    | none => m.transitions
  let path1 := path ++ [event.endpoint]
  let path2 := if path1.length > m.window then path1.tail else path1
  { m with transitions := transitions', recent_paths := setKey m.recent_paths user_id path2 }

/-- Score the transition into the new endpoint, then observe it
(`APISequenceModel.score`). -/
def APISequenceModel.score (m : APISequenceModel) (user_id : String)
    (event : ActivityEvent) : Option RiskSignal × APISequenceModel :=
  let sig : Option RiskSignal :=
    match getKeyD m.recent_paths user_id [] with
    | [] => none
    | p :: ps =>
      let prev := List.getLastD ps p
      let next_counts := getKeyD m.transitions prev []
      let s := (next_counts.map (fun kv => kv.2)).sum
      let total : Nat := if s = 0 then 1 else s
      let probability : ℚ := ((getKeyD next_counts event.endpoint 0 : Nat) : ℚ) / (total : ℚ)
      if probability < 1 / 20 ∧ total ≥ 2 then
        some { name := "api_sequence_anomaly", score := 30,
               detail := "Unexpected endpoint transition" }
      else none
  (sig, m.observe user_id event)

/-- Ordered recent endpoints for a user (`APISequenceModel.recent_sequence`). -/
def APISequenceModel.recent_sequence (m : APISequenceModel) (user_id : String) : List String :=
  getKeyD m.recent_paths user_id []

/-! ## Timing profiler (`security_monitors.py`, `TimingProfiler`) -/

/-- Per-endpoint latency statistics (`TimingProfiler`). -/
structure TimingProfiler where
  sigma_threshold : ℚ
  stats : List (String × TimingStats) := []
deriving DecidableEq, Repr

/-- Update the endpoint's Welford stats and flag outliers (`TimingProfiler.assess`). -/
def TimingProfiler.assess (t : TimingProfiler) (event : ActivityEvent) :
    Option RiskSignal × TimingProfiler :=
  let stats1 := (getKeyD t.stats event.endpoint {}).update event.latency_ms
  let sig : Option RiskSignal :=
    if stats1.count < 5 then none
    else
      let deviation := |event.latency_ms - stats1.mean|
      if deviation > t.sigma_threshold * (stats1.stddev + 1 / 1000000) then
        some { name := "timing_anomaly", score := 15,
               detail := "Latency diverges from endpoint mean" }
      else none
  (sig, { t with stats := setKey t.stats event.endpoint stats1 })

/-! ## Privilege monitor (`security_monitors.py`, `PrivilegeMonitor`) -/

/-- Privilege monitor configuration (`PrivilegeMonitor`, stateless apart from
the account it is handed). -/
structure PrivilegeMonitor where
  drift_threshold : Nat
deriving DecidableEq, Repr

/-- Set difference on string sets modelled as lists (`new - previous`). -/
def listDiff (new prev : List String) : List String :=
  new.filter (fun p => ¬ prev.contains p)

/-- Python trailing slice `l[-n:]`: the last `n` entries, or the whole list
when `n = 0` (since `l[-0:] = l[0:]`) or `n ≥ len(l)`. -/
def takeLastPy (n : Nat) (l : List PrivilegeChange) : List PrivilegeChange :=
  if n = 0 then l else l.drop (l.length - n)

/-- Escalation and drift signals for one call (`PrivilegeMonitor.assess`);
returns the signals together with the mutated account. -/
def PrivilegeMonitor.assess (m : PrivilegeMonitor) (account : AccountState)
    (change : Option PrivilegeChange) : List RiskSignal × AccountState :=
  let step1 :=
    match change with
    | none => (([] : List RiskSignal), account)
    | some c =>
      let escalated := listDiff c.new_privileges c.previous_privileges
      let s :=
        if escalated ≠ [] then
          [{ name := "privilege_escalation", score := 35,
             detail := "Privileges added" : RiskSignal }]
        else []
      (s, { account with privilege_history := account.privilege_history ++ [c] })
  let account1 := step1.2
  let drift :=
    if account1.privilege_history.length ≥ m.drift_threshold then
      let recent := takeLastPy m.drift_threshold account1.privilege_history
      let union_prev := (recent.map (fun item => item.previous_privileges)).flatten
      let union_new := (recent.map (fun item => item.new_privileges)).flatten
      let drifted := listDiff union_new union_prev
      if drifted ≠ [] then
        [{ name := "privilege_drift", score := 20,
           detail := "Privileges drifted upward" : RiskSignal }]
      else []
    else []
  (step1.1 ++ drift, account1)

/-! ## Pivot tracker (`security_monitors.py`, `PivotTracker`) -/

/-- Per-trace list of services (`PivotTracker`). -/
structure PivotTracker where
  depth_threshold : Nat
  traces : List (String × List String) := []
deriving DecidableEq, Repr

/-- Track the trace and flag deep pivots (`PivotTracker.assess`). -/
def PivotTracker.assess (t : PivotTracker) (event : ActivityEvent) :
    Option RiskSignal × PivotTracker :=
  let trace1 := getKeyD t.traces event.trace_id [] ++ [event.service]
  let unique_services := orderedUnique trace1
  let sig : Option RiskSignal :=
    if unique_services.length ≥ t.depth_threshold then
      some { name := "microservice_pivot", score := 18,
             detail := "Trace pivoted across services" }
    else none
  (sig, { t with traces := setKey t.traces event.trace_id trace1 })

/-! ## Graph model (`security_monitors.py`, `GraphModel`) -/

/-- User/IP/device relationship sets (`GraphModel`). -/
structure GraphModel where
  user_to_ips : List (String × List String) := []
  user_to_devices : List (String × List String) := []
  ip_to_users : List (String × List String) := []
deriving DecidableEq, Repr

/-- Insert the edges and flag sharing or sprawl (`GraphModel.assess`). -/
def GraphModel.assess (g : GraphModel) (user_id ip device_id : String) :
    Option RiskSignal × GraphModel :=
  let seen_ip := (getKeyD g.user_to_ips user_id []).contains ip
  let seen_device := (getKeyD g.user_to_devices user_id []).contains device_id
  let ips' := setKey g.user_to_ips user_id (addElem (getKeyD g.user_to_ips user_id []) ip)
  let devices' :=
    setKey g.user_to_devices user_id (addElem (getKeyD g.user_to_devices user_id []) device_id)
  let ip_users' := setKey g.ip_to_users ip (addElem (getKeyD g.ip_to_users ip []) user_id)
  let sig : Option RiskSignal :=
    if seen_ip = false ∧ (getKeyD ip_users' ip []).length > 3 then
      some { name := "shared_ip_risk", score := 22,
             detail := "IP shared across many accounts" }
    else if seen_device = false ∧ (getKeyD devices' user_id []).length > 4 then
      some { name := "device_sprawl", score := 16,
             detail := "User active on many devices" }
    else none
  (sig, { user_to_ips := ips', user_to_devices := devices', ip_to_users := ip_users' })

/-! ## Attack predictor (`attack_predictor.py`) -/

/-- Vector Welford accumulator (`_FeatureStats`). -/
structure FeatureStats where
  count : Nat := 0
  mean : List ℚ := []
  m2 : List ℚ := []
deriving DecidableEq, Repr

/-- One elementwise Welford step. -/
def welfordStep (count : Nat) (v m old_m2 : ℚ) : ℚ × ℚ :=
  let delta := v - m
  let mean := m + delta / (count : ℚ)
  let delta2 := v - mean
  (mean, old_m2 + delta * delta2)

/-- Vector Welford update (`_FeatureStats.update`), lazily zero-initialising. -/
def FeatureStats.update (s : FeatureStats) (vector : List ℚ) : FeatureStats :=
  let mean0 := if s.mean = [] then vector.map (fun _ => 0) else s.mean
  let m20 := if s.mean = [] then vector.map (fun _ => 0) else s.m2
  let count := s.count + 1
  let stepped := List.zipWith (fun v mm => welfordStep count v mm.1 mm.2) vector
    (List.zip mean0 m20)
  { count := count, mean := stepped.map (fun q => q.1), m2 := stepped.map (fun q => q.2) }

/-- Per-dimension standard deviation (`_FeatureStats.stddev`): all ones below
two samples, and a zero deviation is clamped to one (`... or 1.0`). -/
def FeatureStats.stddev (s : FeatureStats) : List ℚ :=
  if s.count < 2 then s.mean.map (fun _ => 1)
  else s.m2.map (fun m2 =>
    let v := ratSqrt (m2 / ((s.count - 1 : Nat) : ℚ))
    if v = 0 then 1 else v)

/-- Substring prefix test on character lists. -/
def charsLeadWith : List Char → List Char → Bool
  | [], _ => true
  | _ :: _, [] => false
  | a :: as, b :: bs => a = b && charsLeadWith as bs

/-- Substring containment on character lists. -/
def charsContain (sub : List Char) : List Char → Bool
  | [] => charsLeadWith sub []
  | c :: rest => charsLeadWith sub (c :: rest) || charsContain sub rest

/-- Python substring test `sub in s`. -/
def strHasSub (s sub : String) : Bool := charsContain sub.data s.data

/-- Engineered feature vector of an event sequence
(`AttackSequencePredictor._featurize`). -/
def featurize (sequence : List ActivityEvent) : List ℚ :=
  let admin_hits := (sequence.filter
    (fun e => strHasSub e.endpoint "/admin" || strHasSub e.endpoint "export")).length
  let status_errors := (sequence.filter (fun e => e.status_code ≥ 400)).length
  let unique_services := (orderedUnique (sequence.map (fun e => e.service))).length
  let denom : Nat := if sequence.length = 0 then 1 else sequence.length
  let avg_latency := (sequence.map (fun e => e.latency_ms)).sum / (denom : ℚ)
  let bursts := sequence.map (fun e => e.bytes_out)
  let max_burst : Int :=
    match bursts with
    | [] => 0
    | x :: xs => xs.foldl max x
  let max_burstQ : ℚ := (max_burst : ℚ)
  [(sequence.length : ℚ), (admin_hits : ℚ), (status_errors : ℚ), (unique_services : ℚ),
   avg_latency, max_burstQ]

/-- Online z-score anomaly detector (`AttackSequencePredictor`). -/
structure AttackSequencePredictor where
  score_multiplier : ℚ
  is_trained : Bool := false
  stats : FeatureStats := {}
  threshold : ℚ
deriving DecidableEq, Repr

/-- Constructor (`AttackSequencePredictor.__init__`):
`threshold = max(contamination, 0.05) * 6`. -/
def AttackSequencePredictor.init (contamination score_multiplier : ℚ) :
    AttackSequencePredictor :=
  { score_multiplier := score_multiplier, threshold := max contamination (1 / 20) * 6 }

/-- Batch fit (`AttackSequencePredictor.fit`). -/
def AttackSequencePredictor.fit (p : AttackSequencePredictor)
    (sequences : List (List ActivityEvent)) : AttackSequencePredictor :=
  let stats := sequences.foldl (fun st seq => st.update (featurize seq)) p.stats
  { p with stats := stats, is_trained := decide (0 < stats.count) }

/-- One extra baseline sample (`AttackSequencePredictor.update_baseline`). -/
def AttackSequencePredictor.update_baseline (p : AttackSequencePredictor)
    (sequence : List ActivityEvent) : AttackSequencePredictor :=
  let stats := p.stats.update (featurize sequence)
  { p with stats := stats, is_trained := decide (0 < stats.count) }

/-- Score a sequence against the baseline (`AttackSequencePredictor.score`). -/
def AttackSequencePredictor.score (p : AttackSequencePredictor)
    (sequence : List ActivityEvent) : Option RiskSignal :=
  if p.is_trained = false then none
  else
    let vector := featurize sequence
    let stds := p.stats.stddev
    let z_scores := List.zipWith (fun v ms => |v - ms.1| / ms.2) vector
      (List.zip p.stats.mean stds)
    let anomaly_budget := (z_scores.map (fun z => max (z - p.threshold) 0)).sum
    if anomaly_budget ≤ 0 then none
    else some { name := "ml_attack_prediction",
                score := min (anomaly_budget * p.score_multiplier) 30,
                detail := "Statistical model flags attack-like sequence" }

/-! ## Risk engine (`risk_engine.py`) -/

/-- Full engine state (`RiskEngine.__init__`). -/
structure RiskEngine where
  config : EngineConfig
  accounts : List (String × AccountState) := []
  behavior : BehaviorAnomalyDetector
  sequence_model : APISequenceModel
  timing : TimingProfiler
  privileges : PrivilegeMonitor
  pivots : PivotTracker
  graph : GraphModel := {}
  fingerprinter : IdentityFingerprinter
  attack_predictor : AttackSequencePredictor
  recent_sequences : List (String × List ActivityEvent) := []
deriving DecidableEq, Repr

/-- Build a fresh engine from a configuration (`RiskEngine.__init__`). -/
def RiskEngine.mkEngine (config : EngineConfig) : RiskEngine :=
  { config := config,
    behavior := { window := config.behavior_window },
    sequence_model := { window := config.sequence_window },
    timing := { sigma_threshold := config.timing_sigma_threshold },
    privileges := { drift_threshold := config.privilege_drift_threshold },
    pivots := { depth_threshold := config.pivot_depth_threshold },
    fingerprinter := { multi_actor_window := config.multi_actor_window },
    attack_predictor := AttackSequencePredictor.init
      config.attack_prediction_contamination config.attack_prediction_score_multiplier }

/-- Look up or create an account (`RiskEngine._get_account`). -/
def RiskEngine.get_account (eng : RiskEngine) (user_id : String) :
    AccountState × RiskEngine :=
  let got := setdefaultKey eng.accounts user_id { user_id := user_id }
  (got.1, { eng with accounts := got.2 })

/-- Seed the attack predictor (`RiskEngine.bootstrap_model`). -/
def RiskEngine.bootstrap_model (eng : RiskEngine)
    (baseline_sequences : List (List ActivityEvent)) : RiskEngine :=
  if baseline_sequences = [] then eng
  else { eng with attack_predictor := eng.attack_predictor.fit baseline_sequences }

/-- Update the per-user recent-sequence queue and, while the predictor is
untrained and the queue is long enough, feed it as a baseline sample
(`RiskEngine._update_sequence`). -/
def RiskEngine.update_sequence (eng : RiskEngine) (user_id : String)
    (event : ActivityEvent) : List ActivityEvent × RiskEngine :=
  let queue := getKeyD eng.recent_sequences user_id [] ++ [event]
  let queue2 := if queue.length > eng.config.sequence_window then queue.tail else queue
  let predictor :=
    if eng.attack_predictor.is_trained = false ∧
        queue2.length ≥ max 3 (eng.config.sequence_window / 2) then
      eng.attack_predictor.update_baseline queue2
    else eng.attack_predictor
  (queue2, { eng with recent_sequences := setKey eng.recent_sequences user_id queue2,
                      attack_predictor := predictor })

/-- Run the first seven detectors in the fixed source order
(`RiskEngine.assess_event`, step 2), threading the account through the
privilege monitor.  Returns the collected signals, the mutated account and
the engine with every detector state advanced. -/
def RiskEngine.run_detectors (eng : RiskEngine) (identity : IdentityContext)
    (event : ActivityEvent) (privilege_change : Option PrivilegeChange)
    (account : AccountState) : List RiskSignal × AccountState × RiskEngine :=
  let fpr := eng.fingerprinter.detect_multi_actor identity
  let bhr := eng.behavior.assess identity.user_id event
  let sqr := eng.sequence_model.score identity.user_id event
  let tmr := eng.timing.assess event
  let prr := eng.privileges.assess account privilege_change
  let pvr := eng.pivots.assess event
  let grr := eng.graph.assess identity.user_id identity.ip identity.device_id
  (optToList fpr.1 ++ optToList bhr.1 ++ optToList sqr.1 ++ optToList tmr.1 ++
     prr.1 ++ optToList pvr.1 ++ optToList grr.1,
   prr.2,
   { eng with fingerprinter := fpr.2, behavior := bhr.2, sequence_model := sqr.2,
              timing := tmr.2, pivots := pvr.2, graph := grr.2 })

/-- Steps 1–2 of `RiskEngine.assess_event`: account lookup, session upsert,
and the seven-detector sweep. -/
def RiskEngine.assess_stage (eng : RiskEngine) (identity : IdentityContext)
    (event : ActivityEvent) (privilege_change : Option PrivilegeChange) :
    List RiskSignal × AccountState × RiskEngine :=
  let got := eng.get_account identity.user_id
  let account := got.1.update_session
    { session_id := pyOr identity.session_id ("session-" ++ identity.user_id),
      device_id := identity.device_id, created_at := identity.timestamp,
      last_seen := identity.timestamp, ip := identity.ip }
  got.2.run_detectors identity event privilege_change account

/-- Step 6 of `RiskEngine.assess_event`: the freeze and force-logout
side-effects on the assessment and the account. -/
def applyAction (action : String) (assessment0 : RiskAssessment) (account : AccountState)
    (session_id : String) : RiskAssessment × AccountState :=
  let step6a :=
    if action = "freeze_account" then
      ({ assessment0 with account_frozen := true }, { account with frozen := true })
    else (assessment0, account)
  if action = "force_logout" then
    ({ step6a.1 with session_invalidated := true }, step6a.2.expire_session session_id)
  else step6a

/-- The account threaded through steps 1–2 of one `assess_event` call:
the looked-up (or fresh) account after the session upsert and the privilege
monitor's history append. -/
def RiskEngine.stageAccount (eng : RiskEngine) (identity : IdentityContext)
    (event : ActivityEvent) (privilege_change : Option PrivilegeChange) : AccountState :=
  (eng.assess_stage identity event privilege_change).2.1

/-- The signals list of one `assess_event` call: the seven-detector sweep of
step 2 followed by the attack predictor's signal, which — per source lines
95–98 — is computed on the queue as updated by `_update_sequence` (step 3
runs before the predictor scores). -/
def RiskEngine.assessSignals (eng : RiskEngine) (identity : IdentityContext)
    (event : ActivityEvent) (privilege_change : Option PrivilegeChange) : List RiskSignal :=
  let stage := eng.assess_stage identity event privilege_change
  let upd := stage.2.2.update_sequence identity.user_id event
  stage.1 ++ optToList (upd.2.attack_predictor.score upd.1)

/-- Step 4 of `assess_event`: the sum of the signal scores. -/
def RiskEngine.assessTotal (eng : RiskEngine) (identity : IdentityContext)
    (event : ActivityEvent) (privilege_change : Option PrivilegeChange) : ℚ :=
  ((RiskEngine.assessSignals eng identity event privilege_change).map (fun s => s.score)).sum

/-- Step 5 of `assess_event`: the action selected from the total score. -/
def RiskEngine.assessAction (eng : RiskEngine) (identity : IdentityContext)
    (event : ActivityEvent) (privilege_change : Option PrivilegeChange) : String :=
  eng.config.evaluate_action (RiskEngine.assessTotal eng identity event privilege_change)

/-- Full assessment (`RiskEngine.assess_event`), assembled from the staged
helpers above which mirror the source's steps in order. -/
def RiskEngine.assess_event (eng : RiskEngine) (identity : IdentityContext)
    (event : ActivityEvent) (privilege_change : Option PrivilegeChange) :
    RiskAssessment × RiskEngine :=
  let assessment0 : RiskAssessment :=
    { total_score := RiskEngine.assessTotal eng identity event privilege_change,
      signals := RiskEngine.assessSignals eng identity event privilege_change,
      action := RiskEngine.assessAction eng identity event privilege_change,
      account_frozen := false, session_invalidated := false }
  let fin := applyAction (RiskEngine.assessAction eng identity event privilege_change)
    assessment0 (RiskEngine.stageAccount eng identity event privilege_change)
    (pyOr identity.session_id "")
  let upd2 := ((eng.assess_stage identity event privilege_change).2.2.update_sequence
    identity.user_id event).2
  (fin.1, { upd2 with accounts := setKey upd2.accounts identity.user_id fin.2 })

/-- Modelled from the spec: the claimed `assess_event` step order in which the
attack predictor is the last detector of step 2 — it scores the per-user
recent-sequence queue as it stood BEFORE the current event is appended — and
only afterwards (step 3) is the queue updated and possibly fed to the
predictor as a baseline sample.  Identical to `RiskEngine.assess_event`
except for the position of the queue update; kept for comparison with the
source-translated definition. -/
def RiskEngine.assess_event_specOrder (eng : RiskEngine) (identity : IdentityContext)
    (event : ActivityEvent) (privilege_change : Option PrivilegeChange) :
    RiskAssessment × RiskEngine :=
  let stage := eng.assess_stage identity event privilege_change
  let ml_signal := stage.2.2.attack_predictor.score
    (getKeyD stage.2.2.recent_sequences identity.user_id [])
  let upd := stage.2.2.update_sequence identity.user_id event
  let signals := stage.1 ++ optToList ml_signal
  let total_score := (signals.map (fun s => s.score)).sum
  let action := eng.config.evaluate_action total_score
  let assessment0 : RiskAssessment :=
    { total_score := total_score, signals := signals, action := action,
      account_frozen := false, session_invalidated := false }
  let fin := applyAction action assessment0 stage.2.1 (pyOr identity.session_id "")
  (fin.1, { upd.2 with accounts := setKey upd.2.accounts identity.user_id fin.2 })

/-- Administrative freeze (`RiskEngine.freeze_account`). -/
def RiskEngine.freeze_account (eng : RiskEngine) (user_id : String) : RiskEngine :=
  let got := eng.get_account user_id
  { got.2 with accounts := setKey got.2.accounts user_id { got.1 with frozen := true } }

/-- Administrative session reset (`RiskEngine.reset_sessions`). -/
def RiskEngine.reset_sessions (eng : RiskEngine) (user_id : String) : RiskEngine :=
  let got := eng.get_account user_id
  { got.2 with accounts := setKey got.2.accounts user_id { got.1 with sessions := [] } }

/-- Summary record returned by `RiskEngine.summary`. -/
structure SummaryView where
  frozen : Bool
  active_sessions : List String
  behavior_request_rate : ℚ
  recent_sequence : List String
deriving DecidableEq, Repr

/-- Account summary (`RiskEngine.summary`); like the source it goes through
`_get_account` and therefore creates the account on first reference. -/
def RiskEngine.summary (eng : RiskEngine) (user_id : String) :
    SummaryView × RiskEngine :=
  let got := eng.get_account user_id
  ({ frozen := got.1.frozen,
     active_sessions := got.1.sessions.map (fun kv => kv.1),
     behavior_request_rate := got.2.behavior.volume_summary user_id,
     recent_sequence := got.2.sequence_model.recent_sequence user_id },
   got.2)

/-- The frozen flag recorded for a user, `false` when the account does not
exist yet. -/
def RiskEngine.frozenOf (eng : RiskEngine) (u : String) : Bool :=
  match getKey? eng.accounts u with
  | some a => a.frozen
  | none => false

/-! ## Core operations as a transition system -/

/-- One core engine operation (§4.1 of the spec). -/
inductive EngineOp where
  | assess (identity : IdentityContext) (event : ActivityEvent)
      (privilege_change : Option PrivilegeChange)
  | bootstrap (baselines : List (List ActivityEvent))
  | freeze (user_id : String)
  | reset (user_id : String)
  | summarize (user_id : String)

/-- Apply one core operation to the engine state. -/
def RiskEngine.applyOp (eng : RiskEngine) : EngineOp → RiskEngine
  | .assess i e pc => (eng.assess_event i e pc).2
  | .bootstrap bs => eng.bootstrap_model bs
  | .freeze u => eng.freeze_account u
  | .reset u => eng.reset_sessions u
  | .summarize u => (eng.summary u).2

/-- Apply a sequence of core operations. -/
def RiskEngine.runOps (eng : RiskEngine) (ops : List EngineOp) : RiskEngine :=
  ops.foldl RiskEngine.applyOp eng

/-! ## Iterated forms and concrete fixtures used by the theorems -/

/-- Observe a list of events in order. -/
def observeList (p : BehaviorProfile) (es : List ActivityEvent) : BehaviorProfile :=
  es.foldl BehaviorProfile.observe p

/-- Run the behavior detector over a list of events for one user. -/
def BehaviorAnomalyDetector.assessList (d : BehaviorAnomalyDetector) (user : String)
    (es : List ActivityEvent) : BehaviorAnomalyDetector :=
  es.foldl (fun dd e => (dd.assess user e).2) d

/-- The fixed detector evaluation order of `assess_event`, as signal names;
the behavior detector emits one of its two names, privilege up to both of
its names in this order, the graph detector one of its two names. -/
def canonicalSignalOrder : List String :=
  ["multi_actor_detection", "behavior_rate_anomaly", "behavior_endpoint_anomaly",
   "api_sequence_anomaly", "timing_anomaly", "privilege_escalation", "privilege_drift",
   "microservice_pivot", "shared_ip_risk", "device_sprawl", "ml_attack_prediction"]

/-- The instant `2024-01-01T00:00:00Z` as Unix seconds. -/
def T0 : ℚ := 1704067200

/-- Scenario S1 identity. -/
def idS1 : IdentityContext :=
  { user_id := "u", device_id := "d", ip := "1.1.1.1", geo := "US", user_agent := "a",
    session_id := some "s", roles := [], privileges := [], timestamp := T0 }

/-- Scenario S1 event. -/
def evS1 : ActivityEvent :=
  { timestamp := T0, endpoint := "/x", method := "GET", status_code := 200,
    latency_ms := 100, bytes_in := 0, bytes_out := 0, service := "svc", trace_id := "tr" }

/-- Scenario S1 privilege change. -/
def pcS1 : PrivilegeChange :=
  { previous_roles := [], new_roles := [], previous_privileges := ["read"],
    new_privileges := ["read", "write"], timestamp := T0 }

/-- A fresh engine with the default configuration. -/
def engDefault : RiskEngine := RiskEngine.mkEngine {}

/-- The default engine after `bootstrap_model` with a single empty baseline
sequence: the attack predictor is trained on the all-zero feature vector
with one sample, so its standard deviations are all clamped to 1. -/
def engBoot : RiskEngine := engDefault.bootstrap_model [[]]

/-- Identity used for the queue-update-order run. -/
def idC6 : IdentityContext :=
  { user_id := "u6", device_id := "d", ip := "1.1.1.1", geo := "US", user_agent := "a",
    session_id := some "s", roles := [], privileges := [], timestamp := 0 }

/-- High-latency event used for the queue-update-order run. -/
def evC6 : ActivityEvent :=
  { timestamp := 0, endpoint := "/x", method := "GET", status_code := 200,
    latency_ms := 1000, bytes_in := 0, bytes_out := 0, service := "svc", trace_id := "tr" }

/-- Early event with a late timestamp (non-monotone input, first call). -/
def e1C7 : ActivityEvent :=
  { timestamp := 200000, endpoint := "/x", method := "GET", status_code := 200,
    latency_ms := 100, bytes_in := 0, bytes_out := 0, service := "svc", trace_id := "t1" }

/-- Later event with an earlier timestamp (non-monotone input, second call). -/
def e2C7 : ActivityEvent :=
  { timestamp := 0, endpoint := "/x", method := "GET", status_code := 200,
    latency_ms := 100, bytes_in := 0, bytes_out := 0, service := "svc", trace_id := "t2" }

/-- A monotone single event for the window-integrity witness. -/
def eW7 : ActivityEvent :=
  { timestamp := 50, endpoint := "/x", method := "GET", status_code := 200,
    latency_ms := 100, bytes_in := 0, bytes_out := 0, service := "svc", trace_id := "t" }


/-- The profile stored for `user` after the behavior detector assesses `es`
in order, starting from a fresh detector with window `w`. -/
def behaviorProfileAfter (w : ℚ) (user : String) (es : List ActivityEvent) : BehaviorProfile :=
  getKeyD ((BehaviorAnomalyDetector.assessList { window := w } user es).profiles) user
    { window := w }

/-- Identity used by the fingerprint witness. -/
def idW1 : IdentityContext :=
  { user_id := "u", device_id := "d", ip := "1.1.1.1", geo := "US", user_agent := "a",
    session_id := some "s1", roles := ["r1"], privileges := ["p1"], timestamp := 0 }

/-- Same five hashed fields as `idW1`, different session, roles, privileges
and timestamp. -/
def idW2 : IdentityContext :=
  { user_id := "u", device_id := "d", ip := "1.1.1.1", geo := "US", user_agent := "a",
    session_id := none, roles := [], privileges := ["p2"], timestamp := 99 }

/-! ## Helper lemmas: association-list dictionaries -/

theorem getKey?_setKey_self {α : Type} (m : List (String × α)) (k : String) (v : α) :
    getKey? (setKey m k v) k = some v := by
  induction m with
  | nil => simp [setKey, getKey?]
  | cons hd tl ih =>
    obtain ⟨a, b⟩ := hd
    by_cases h : a = k
    · subst h; simp [setKey, getKey?]
    · simp [setKey, getKey?, h, ih]

theorem getKey?_setKey_ne {α : Type} (m : List (String × α)) (k k' : String) (v : α)
    (h : k' ≠ k) : getKey? (setKey m k v) k' = getKey? m k' := by
  have hk' : ¬ k = k' := fun hh => h hh.symm
  induction m with
  | nil => simp [setKey, getKey?, hk']
  | cons hd tl ih =>
    obtain ⟨a, b⟩ := hd
    by_cases hk : a = k
    · subst hk; simp [setKey, getKey?, hk']
    · simp only [setKey, if_neg hk, getKey?]
      by_cases hq : a = k'
      · simp [hq]
      · simp [hq, ih]

theorem getKey?_popKey_self {α : Type} (m : List (String × α)) (k : String) :
    getKey? (popKey m k) k = none := by
  induction m with
  | nil => simp [popKey, getKey?]
  | cons hd tl ih =>
    obtain ⟨a, b⟩ := hd
    by_cases h : a = k
    · simp [popKey, h, ih]
    · simp [popKey, getKey?, h, ih]

theorem getKey?_popKey_ne {α : Type} (m : List (String × α)) (k k' : String)
    (h : k' ≠ k) : getKey? (popKey m k) k' = getKey? m k' := by
  have hk' : ¬ k = k' := fun hh => h hh.symm
  induction m with
  | nil => simp [popKey]
  | cons hd tl ih =>
    obtain ⟨a, b⟩ := hd
    by_cases hk : a = k
    · subst hk; simp [popKey, getKey?, hk', ih]
    · simp only [popKey, if_neg hk, getKey?]
      by_cases hq : a = k'
      · simp [hq]
      · simp [hq, ih]

theorem popKey_absent {α : Type} (m : List (String × α)) (k : String)
    (h : getKey? m k = none) : popKey m k = m := by
  induction m with
  | nil => rfl
  | cons hd tl ih =>
    obtain ⟨a, b⟩ := hd
    rw [getKey?] at h
    by_cases hk : a = k
    · rw [if_pos hk] at h; exact absurd h (by simp)
    · rw [if_neg hk] at h
      rw [popKey, if_neg hk, ih h]

theorem getKey?_append_ne {α : Type} (m : List (String × α)) (k k' : String) (d : α)
    (h : k' ≠ k) : getKey? (m ++ [(k, d)]) k' = getKey? m k' := by
  have hk' : ¬ k = k' := fun hh => h hh.symm
  induction m with
  | nil => simp [getKey?, hk']
  | cons hd tl ih =>
    obtain ⟨a, b⟩ := hd
    by_cases hq : a = k'
    · simp [getKey?, hq]
    · simp [getKey?, hq, ih]

theorem setdefaultKey_fst {α : Type} (m : List (String × α)) (k : String) (d : α) :
    (setdefaultKey m k d).1 = getKeyD m k d := by
  rw [setdefaultKey, getKeyD]
  cases getKey? m k <;> rfl

theorem getKey?_setdefaultKey_self {α : Type} (m : List (String × α)) (k : String) (d : α) :
    getKey? (setdefaultKey m k d).2 k = some (getKeyD m k d) := by
  rw [setdefaultKey, getKeyD]
  cases h : getKey? m k with
  | some v => simpa using h
  | none =>
    simp only [Option.getD]
    induction m with
    | nil => simp [getKey?]
    | cons hd tl ih =>
      obtain ⟨a, b⟩ := hd
      rw [getKey?] at h
      by_cases hk : a = k
      · rw [if_pos hk] at h; exact absurd h (by simp)
      · rw [if_neg hk] at h
        simpa [getKey?, hk] using ih h

theorem getKey?_setdefaultKey_ne {α : Type} (m : List (String × α)) (k k' : String) (d : α)
    (h : k' ≠ k) : getKey? (setdefaultKey m k d).2 k' = getKey? m k' := by
  rw [setdefaultKey]
  cases getKey? m k with
  | some v => rfl
  | none => simpa using getKey?_append_ne m k k' d h

/-! ## Helper lemmas: conditional option results -/

theorem ite_some_eq {α : Type} {c : Prop} [Decidable c] {a s : α}
    (h : (if c then some a else none) = some s) : s = a := by
  by_cases hc : c
  · rw [if_pos hc] at h; exact (Option.some.inj h).symm
  · rw [if_neg hc] at h; exact absurd h (by simp)

theorem ite2_some_eq {α : Type} {c1 c2 : Prop} [Decidable c1] [Decidable c2] {a b s : α}
    (h : (if c1 then some a else if c2 then some b else none) = some s) : s = a ∨ s = b := by
  by_cases hc : c1
  · rw [if_pos hc] at h; exact Or.inl (Option.some.inj h).symm
  · rw [if_neg hc] at h; exact Or.inr (ite_some_eq h)

theorem ite_none_some_eq {α : Type} {c1 c2 : Prop} [Decidable c1] [Decidable c2] {a s : α}
    (h : (if c1 then none else if c2 then some a else none) = some s) : s = a := by
  by_cases hc : c1
  · rw [if_pos hc] at h; exact absurd h (by simp)
  · rw [if_neg hc] at h; exact ite_some_eq h

theorem ite_none_none_some_eq {α : Type} {c1 c2 : Prop} [Decidable c1] [Decidable c2] {a s : α}
    (h : (if c1 then none else if c2 then none else some a) = some s) : s = a := by
  by_cases hc : c1
  · rw [if_pos hc] at h; exact absurd h (by simp)
  · rw [if_neg hc] at h
    by_cases hc2 : c2
    · rw [if_pos hc2] at h; exact absurd h (by simp)
    · rw [if_neg hc2] at h; exact (Option.some.inj h).symm

/-! ## Helper lemmas: detector signal names -/

theorem detect_multi_actor_name (st : IdentityFingerprinter) (identity : IdentityContext)
    (s : RiskSignal) (h : (st.detect_multi_actor identity).1 = some s) :
    s.name = "multi_actor_detection" := by
  unfold IdentityFingerprinter.detect_multi_actor at h
  dsimp only at h
  split at h
  · exact absurd h (by simp)
  · rw [ite_some_eq h]

theorem behavior_assess_name (d : BehaviorAnomalyDetector) (u : String) (e : ActivityEvent)
    (s : RiskSignal) (h : (d.assess u e).1 = some s) :
    s.name = "behavior_rate_anomaly" ∨ s.name = "behavior_endpoint_anomaly" := by
  unfold BehaviorAnomalyDetector.assess at h
  dsimp only at h
  rcases ite2_some_eq h with hs | hs
  · exact Or.inl (by rw [hs])
  · exact Or.inr (by rw [hs])

theorem sequence_score_name (m : APISequenceModel) (u : String) (e : ActivityEvent)
    (s : RiskSignal) (h : (m.score u e).1 = some s) :
    s.name = "api_sequence_anomaly" := by
  unfold APISequenceModel.score at h
  dsimp only at h
  split at h
  · exact absurd h (by simp)
  · rw [ite_some_eq h]

theorem timing_assess_name (t : TimingProfiler) (e : ActivityEvent)
    (s : RiskSignal) (h : (t.assess e).1 = some s) : s.name = "timing_anomaly" := by
  unfold TimingProfiler.assess at h
  dsimp only at h
  rw [ite_none_some_eq h]

theorem pivot_assess_name (t : PivotTracker) (e : ActivityEvent)
    (s : RiskSignal) (h : (t.assess e).1 = some s) : s.name = "microservice_pivot" := by
  unfold PivotTracker.assess at h
  dsimp only at h
  rw [ite_some_eq h]

theorem graph_assess_name (g : GraphModel) (u ip dev : String)
    (s : RiskSignal) (h : (g.assess u ip dev).1 = some s) :
    s.name = "shared_ip_risk" ∨ s.name = "device_sprawl" := by
  unfold GraphModel.assess at h
  dsimp only at h
  rcases ite2_some_eq h with hs | hs
  · exact Or.inl (by rw [hs])
  · exact Or.inr (by rw [hs])

theorem predictor_score_name (p : AttackSequencePredictor) (seq : List ActivityEvent)
    (s : RiskSignal) (h : p.score seq = some s) : s.name = "ml_attack_prediction" := by
  unfold AttackSequencePredictor.score at h
  dsimp only at h
  rw [ite_none_none_some_eq h]

/-! ## Helper lemmas: privilege monitor -/

theorem privilege_assess_parts (m : PrivilegeMonitor) (a : AccountState)
    (c : Option PrivilegeChange) :
    List.Sublist (((m.assess a c).1).map (fun s => s.name))
      ["privilege_escalation", "privilege_drift"] := by
  unfold PrivilegeMonitor.assess
  dsimp only
  rw [List.map_append]
  show List.Sublist _ (["privilege_escalation"] ++ ["privilege_drift"])
  apply List.Sublist.append
  · rcases c with _ | cc
    · simp
    · dsimp only
      split
      · simp
      · simp
  · split
    · split
      · simp
      · simp
    · simp

theorem privilege_assess_frozen (m : PrivilegeMonitor) (a : AccountState)
    (c : Option PrivilegeChange) : ((m.assess a c).2).frozen = a.frozen := by
  unfold PrivilegeMonitor.assess
  rcases c with _ | cc <;> rfl

theorem privilege_assess_sessions (m : PrivilegeMonitor) (a : AccountState)
    (c : Option PrivilegeChange) : ((m.assess a c).2).sessions = a.sessions := by
  unfold PrivilegeMonitor.assess
  rcases c with _ | cc <;> rfl

theorem privilege_assess_user (m : PrivilegeMonitor) (a : AccountState)
    (c : Option PrivilegeChange) : ((m.assess a c).2).user_id = a.user_id := by
  unfold PrivilegeMonitor.assess
  rcases c with _ | cc <;> rfl

theorem privilege_assess_history (m : PrivilegeMonitor) (a : AccountState)
    (c : Option PrivilegeChange) :
    ((m.assess a c).2).privilege_history =
      a.privilege_history ++ (match c with | none => [] | some cc => [cc]) := by
  unfold PrivilegeMonitor.assess
  rcases c with _ | cc
  · simp
  · rfl

/-! ## Helper lemmas: engine structure -/

theorem run_detectors_signals (eng : RiskEngine) (i : IdentityContext) (e : ActivityEvent)
    (pc : Option PrivilegeChange) (a : AccountState) :
    (eng.run_detectors i e pc a).1 =
      optToList (eng.fingerprinter.detect_multi_actor i).1 ++
      optToList (eng.behavior.assess i.user_id e).1 ++
      optToList (eng.sequence_model.score i.user_id e).1 ++
      optToList (eng.timing.assess e).1 ++
      (eng.privileges.assess a pc).1 ++
      optToList (eng.pivots.assess e).1 ++
      optToList (eng.graph.assess i.user_id i.ip i.device_id).1 := rfl

theorem run_detectors_account (eng : RiskEngine) (i : IdentityContext) (e : ActivityEvent)
    (pc : Option PrivilegeChange) (a : AccountState) :
    (eng.run_detectors i e pc a).2.1 = (eng.privileges.assess a pc).2 := rfl

theorem applyAction_eq (act : String) (a0 : RiskAssessment) (acc : AccountState) (sid : String) :
    applyAction act a0 acc sid =
      ({ a0 with account_frozen := if act = "freeze_account" then true else a0.account_frozen,
                 session_invalidated := if act = "force_logout" then true
                                        else a0.session_invalidated },
       { acc with frozen := if act = "freeze_account" then true else acc.frozen,
                  sessions := if act = "force_logout" then popKey acc.sessions sid
                              else acc.sessions }) := by
  unfold applyAction AccountState.expire_session
  dsimp only
  split_ifs <;> rfl

theorem assess_event_fst (eng : RiskEngine) (i : IdentityContext) (e : ActivityEvent)
    (pc : Option PrivilegeChange) :
    (eng.assess_event i e pc).1 =
      { total_score := RiskEngine.assessTotal eng i e pc,
        signals := RiskEngine.assessSignals eng i e pc,
        action := RiskEngine.assessAction eng i e pc,
        account_frozen := if RiskEngine.assessAction eng i e pc = "freeze_account" then true
                          else false,
        session_invalidated := if RiskEngine.assessAction eng i e pc = "force_logout" then true
                               else false } := by
  unfold RiskEngine.assess_event
  dsimp only
  rw [applyAction_eq]

theorem assess_event_accounts (eng : RiskEngine) (i : IdentityContext) (e : ActivityEvent)
    (pc : Option PrivilegeChange) :
    ((eng.assess_event i e pc).2).accounts =
      setKey (setdefaultKey eng.accounts i.user_id { user_id := i.user_id }).2 i.user_id
        { RiskEngine.stageAccount eng i e pc with
            frozen := if RiskEngine.assessAction eng i e pc = "freeze_account" then true
                      else (RiskEngine.stageAccount eng i e pc).frozen,
            sessions := if RiskEngine.assessAction eng i e pc = "force_logout" then
                          popKey (RiskEngine.stageAccount eng i e pc).sessions
                            (pyOr i.session_id "")
                        else (RiskEngine.stageAccount eng i e pc).sessions } := by
  unfold RiskEngine.assess_event
  dsimp only
  rw [applyAction_eq]
  rfl

theorem update_session_frozen (a : AccountState) (s : SessionState) :
    (a.update_session s).frozen = a.frozen := rfl

theorem stageAccount_eq (eng : RiskEngine) (i : IdentityContext) (e : ActivityEvent)
    (pc : Option PrivilegeChange) :
    RiskEngine.stageAccount eng i e pc =
      (eng.privileges.assess
        ((setdefaultKey eng.accounts i.user_id { user_id := i.user_id }).1.update_session
          { session_id := pyOr i.session_id ("session-" ++ i.user_id),
            device_id := i.device_id, created_at := i.timestamp,
            last_seen := i.timestamp, ip := i.ip }) pc).2 := rfl

theorem stageAccount_frozen (eng : RiskEngine) (i : IdentityContext) (e : ActivityEvent)
    (pc : Option PrivilegeChange) :
    (RiskEngine.stageAccount eng i e pc).frozen =
      (getKeyD eng.accounts i.user_id { user_id := i.user_id }).frozen := by
  rw [stageAccount_eq, privilege_assess_frozen, update_session_frozen, setdefaultKey_fst]

theorem stageAccount_sessions (eng : RiskEngine) (i : IdentityContext) (e : ActivityEvent)
    (pc : Option PrivilegeChange) :
    (RiskEngine.stageAccount eng i e pc).sessions =
      setKey (getKeyD eng.accounts i.user_id { user_id := i.user_id }).sessions
        (pyOr i.session_id ("session-" ++ i.user_id))
        { session_id := pyOr i.session_id ("session-" ++ i.user_id),
          device_id := i.device_id, created_at := i.timestamp,
          last_seen := i.timestamp, ip := i.ip } := by
  rw [stageAccount_eq, privilege_assess_sessions]
  rw [show ∀ a : AccountState, ∀ s : SessionState, (a.update_session s).sessions =
    setKey a.sessions s.session_id s from fun a s => rfl]
  rw [setdefaultKey_fst]

theorem frozenOf_assess_event (eng : RiskEngine) (i : IdentityContext) (e : ActivityEvent)
    (pc : Option PrivilegeChange) (u : String) (h : eng.frozenOf u = true) :
    ((eng.assess_event i e pc).2).frozenOf u = true := by
  unfold RiskEngine.frozenOf at h ⊢
  rw [assess_event_accounts]
  by_cases hu : u = i.user_id
  · rw [hu] at h ⊢
    rw [getKey?_setKey_self]
    dsimp only
    rw [stageAccount_frozen]
    rcases hsome : getKey? eng.accounts i.user_id with _ | a
    · rw [hsome] at h; exact absurd h (by simp)
    · rw [hsome] at h
      dsimp only at h
      rw [getKeyD, hsome]
      dsimp only [Option.getD]
      rw [h]
      split <;> rfl
  · rw [getKey?_setKey_ne _ _ _ _ hu, getKey?_setdefaultKey_ne _ _ _ _ hu]
    exact h

theorem frozenOf_freeze_account (eng : RiskEngine) (v u : String) (h : eng.frozenOf u = true) :
    (eng.freeze_account v).frozenOf u = true := by
  unfold RiskEngine.frozenOf at h ⊢
  unfold RiskEngine.freeze_account RiskEngine.get_account
  dsimp only
  by_cases hu : u = v
  · subst hu
    rw [getKey?_setKey_self]
  · rw [getKey?_setKey_ne _ _ _ _ hu, getKey?_setdefaultKey_ne _ _ _ _ hu]
    exact h

theorem frozenOf_freeze_account_self (eng : RiskEngine) (v : String) :
    (eng.freeze_account v).frozenOf v = true := by
  unfold RiskEngine.frozenOf RiskEngine.freeze_account RiskEngine.get_account
  dsimp only
  rw [getKey?_setKey_self]

theorem frozenOf_reset_sessions (eng : RiskEngine) (v u : String) (h : eng.frozenOf u = true) :
    (eng.reset_sessions v).frozenOf u = true := by
  unfold RiskEngine.frozenOf at h ⊢
  unfold RiskEngine.reset_sessions RiskEngine.get_account
  dsimp only
  by_cases hu : u = v
  · subst hu
    rw [getKey?_setKey_self]
    dsimp only
    rw [setdefaultKey_fst, getKeyD]
    rcases hsome : getKey? eng.accounts u with _ | a
    · rw [hsome] at h; exact absurd h (by simp)
    · rw [hsome] at h; exact h
  · rw [getKey?_setKey_ne _ _ _ _ hu, getKey?_setdefaultKey_ne _ _ _ _ hu]
    exact h

theorem frozenOf_summary (eng : RiskEngine) (v u : String) (h : eng.frozenOf u = true) :
    ((eng.summary v).2).frozenOf u = true := by
  unfold RiskEngine.frozenOf at h ⊢
  unfold RiskEngine.summary RiskEngine.get_account
  dsimp only
  by_cases hu : u = v
  · subst hu
    rw [getKey?_setdefaultKey_self]
    dsimp only
    rw [getKeyD]
    rcases hsome : getKey? eng.accounts u with _ | a
    · rw [hsome] at h; exact absurd h (by simp)
    · rw [hsome] at h; exact h
  · rw [getKey?_setdefaultKey_ne _ _ _ _ hu]
    exact h

theorem frozenOf_bootstrap (eng : RiskEngine) (bs : List (List ActivityEvent)) (u : String)
    (h : eng.frozenOf u = true) : (eng.bootstrap_model bs).frozenOf u = true := by
  unfold RiskEngine.frozenOf at h ⊢
  unfold RiskEngine.bootstrap_model
  by_cases hbs : bs = []
  · rw [if_pos hbs]; exact h
  · rw [if_neg hbs]; exact h

theorem frozenOf_applyOp (eng : RiskEngine) (op : EngineOp) (u : String)
    (h : eng.frozenOf u = true) : (eng.applyOp op).frozenOf u = true := by
  cases op with
  | assess i e pc => exact frozenOf_assess_event eng i e pc u h
  | bootstrap bs => exact frozenOf_bootstrap eng bs u h
  | freeze v => exact frozenOf_freeze_account eng v u h
  | reset v => exact frozenOf_reset_sessions eng v u h
  | summarize v => exact frozenOf_summary eng v u h

theorem frozenOf_runOps (eng : RiskEngine) (ops : List EngineOp) (u : String)
    (h : eng.frozenOf u = true) : (eng.runOps ops).frozenOf u = true := by
  induction ops generalizing eng with
  | nil => exact h
  | cons op rest ih => exact ih _ (frozenOf_applyOp eng op u h)

theorem summary_frozen (eng : RiskEngine) (u : String) :
    ((eng.summary u).1).frozen = eng.frozenOf u := by
  unfold RiskEngine.summary RiskEngine.get_account RiskEngine.frozenOf
  dsimp only
  rw [setdefaultKey_fst, getKeyD]
  cases getKey? eng.accounts u <;> rfl

theorem evaluate_action_iff (c : EngineConfig) (s : ℚ) :
    (c.evaluate_action s = "freeze_account" ↔ c.high_risk_threshold ≤ s) ∧
    (c.evaluate_action s = "force_logout" ↔
      (c.medium_risk_threshold ≤ s ∧ s < c.high_risk_threshold)) ∧
    (c.evaluate_action s = "monitor" ↔
      (s < c.high_risk_threshold ∧ s < c.medium_risk_threshold)) := by
  unfold EngineConfig.evaluate_action
  by_cases h1 : s ≥ c.high_risk_threshold
  · rw [if_pos h1]
    refine ⟨⟨fun _ => h1, fun _ => rfl⟩,
      ⟨fun hh => absurd hh (by decide), fun hh => absurd h1 (not_le.mpr hh.2)⟩,
      ⟨fun hh => absurd hh (by decide), fun hh => absurd h1 (not_le.mpr hh.1)⟩⟩
  · rw [if_neg h1]
    by_cases h2 : s ≥ c.medium_risk_threshold
    · rw [if_pos h2]
      refine ⟨⟨fun hh => absurd hh (by decide), fun hh => absurd hh h1⟩,
        ⟨fun _ => ⟨h2, not_le.mp h1⟩, fun _ => rfl⟩,
        ⟨fun hh => absurd hh (by decide), fun hh => absurd h2 (not_le.mpr hh.2)⟩⟩
    · rw [if_neg h2]
      refine ⟨⟨fun hh => absurd hh (by decide), fun hh => absurd hh h1⟩,
        ⟨fun hh => absurd hh (by decide), fun hh => absurd hh.1 h2⟩,
        ⟨fun _ => ⟨not_le.mp h1, not_le.mp h2⟩, fun _ => rfl⟩⟩

/-- Claim C2: for every assessment returned by `assess_event` under a config
with ordered thresholds, the action is `freeze_account` iff the total score
reaches the high threshold, `force_logout` iff it lies in the medium band,
`monitor` otherwise; hence the freeze and force-logout side-effect branches
of step 6 are mutually exclusive. -/
theorem C2_action_selection (eng : RiskEngine) (i : IdentityContext) (e : ActivityEvent)
    (pc : Option PrivilegeChange)
    (h : eng.config.medium_risk_threshold ≤ eng.config.high_risk_threshold) :
    ((eng.assess_event i e pc).1.action = "freeze_account" ↔
       eng.config.high_risk_threshold ≤ (eng.assess_event i e pc).1.total_score) ∧
    ((eng.assess_event i e pc).1.action = "force_logout" ↔
       (eng.config.medium_risk_threshold ≤ (eng.assess_event i e pc).1.total_score ∧
        (eng.assess_event i e pc).1.total_score < eng.config.high_risk_threshold)) ∧
    ((eng.assess_event i e pc).1.action = "monitor" ↔
       (¬ eng.config.high_risk_threshold ≤ (eng.assess_event i e pc).1.total_score ∧
        ¬ (eng.config.medium_risk_threshold ≤ (eng.assess_event i e pc).1.total_score ∧
           (eng.assess_event i e pc).1.total_score < eng.config.high_risk_threshold))) ∧
    ¬ ((eng.assess_event i e pc).1.account_frozen = true ∧
       (eng.assess_event i e pc).1.session_invalidated = true) := by
  rw [assess_event_fst]
  dsimp only
  obtain ⟨hfr, hfo, hmo⟩ :=
    evaluate_action_iff eng.config (RiskEngine.assessTotal eng i e pc)
  have hact : RiskEngine.assessAction eng i e pc =
      eng.config.evaluate_action (RiskEngine.assessTotal eng i e pc) := rfl
  rw [hact]
  refine ⟨hfr, hfo, ?_, ?_⟩
  · rw [hmo]
    constructor
    · rintro ⟨hlt1, hlt2⟩
      refine ⟨not_le.mpr hlt1, ?_⟩
      rintro ⟨hle, _⟩
      exact absurd hle (not_le.mpr hlt2)
    · rintro ⟨hn1, hn2⟩
      have hlt1 : RiskEngine.assessTotal eng i e pc < eng.config.high_risk_threshold :=
        not_le.mp hn1
      refine ⟨hlt1, ?_⟩
      by_contra hcon
      exact hn2 ⟨not_lt.mp hcon, hlt1⟩
  · rintro ⟨hf, hs⟩
    split_ifs at hf hs with ha hb
    all_goals simp_all

/-- Claim C3: the frozen flag is monotonic.  Once an account is frozen, every
sequence of core operations leaves it frozen and `summary` keeps reporting
`frozen = true`; an assessment returned with `account_frozen = true` leaves
the account frozen, and `freeze_account` freezes it. -/
theorem C3_frozen_monotonic (eng : RiskEngine) (u : String) (ops : List EngineOp)
    (h : eng.frozenOf u = true) :
    ((eng.runOps ops).frozenOf u = true ∧ (((eng.runOps ops).summary u).1).frozen = true) ∧
    (∀ (i : IdentityContext) (e : ActivityEvent) (pc : Option PrivilegeChange),
      ((eng.assess_event i e pc).1).account_frozen = true →
        ((eng.assess_event i e pc).2).frozenOf i.user_id = true) ∧
    (∀ v, (eng.freeze_account v).frozenOf v = true) := by
  refine ⟨⟨frozenOf_runOps eng ops u h, ?_⟩, ?_, fun v => frozenOf_freeze_account_self eng v⟩
  · rw [summary_frozen]
    exact frozenOf_runOps eng ops u h
  · intro i e pc hf
    rw [assess_event_fst] at hf
    dsimp only at hf
    unfold RiskEngine.frozenOf
    rw [assess_event_accounts, getKey?_setKey_self]
    dsimp only
    split_ifs at hf ⊢ with hact
    rfl

/-- Claim C9: when `assess_event` selects `force_logout`, the session keyed
by `session_id`-or-empty is removed from the account (removal of an absent
key is a silent no-op leaving the mapping otherwise unchanged; with a null
`session_id` the synthetic session of step 1 survives), the assessment's
`session_invalidated` flag is set, and the other account fields are
untouched by this step. -/
theorem C9_force_logout_sessions (eng : RiskEngine) (i : IdentityContext) (e : ActivityEvent)
    (pc : Option PrivilegeChange)
    (h : (eng.assess_event i e pc).1.action = "force_logout") :
    (eng.assess_event i e pc).1.session_invalidated = true ∧
    getKey? ((eng.assess_event i e pc).2).accounts i.user_id =
      some { RiskEngine.stageAccount eng i e pc with
               sessions := popKey (RiskEngine.stageAccount eng i e pc).sessions
                 (pyOr i.session_id "") } ∧
    (∀ (ss : List (String × SessionState)) (k : String),
      getKey? ss k = none → popKey ss k = ss) ∧
    (∀ k, k ≠ pyOr i.session_id "" →
      getKey? (popKey (RiskEngine.stageAccount eng i e pc).sessions (pyOr i.session_id "")) k =
        getKey? (RiskEngine.stageAccount eng i e pc).sessions k) ∧
    (i.session_id = none →
      (getKey? (popKey (RiskEngine.stageAccount eng i e pc).sessions (pyOr i.session_id ""))
        ("session-" ++ i.user_id)).isSome = true) := by
  rw [assess_event_fst] at h
  dsimp only at h
  have hact : RiskEngine.assessAction eng i e pc = "force_logout" := h
  have hnotfr : ¬ RiskEngine.assessAction eng i e pc = "freeze_account" := by
    rw [hact]; decide
  refine ⟨?_, ?_, ?_, ?_, ?_⟩
  · rw [assess_event_fst]
    dsimp only
    rw [if_pos hact]
  · rw [assess_event_accounts, getKey?_setKey_self, if_neg hnotfr, if_pos hact]
  · exact fun ss k hk => popKey_absent ss k hk
  · exact fun k hk => getKey?_popKey_ne _ _ _ hk
  · intro hnone
    have hsyn : ("session-" ++ i.user_id) ≠ pyOr i.session_id "" := by
      rw [hnone]
      intro hh
      rw [show pyOr none "" = "" from rfl] at hh
      have hlen := congrArg String.length hh
      rw [String.length_append] at hlen
      have h8 : ("session-" : String).length = 8 := rfl
      have h0 : ("" : String).length = 0 := rfl
      rw [h8, h0] at hlen
      omega
    rw [getKey?_popKey_ne _ _ _ hsyn, stageAccount_sessions, hnone]
    rw [show pyOr none ("session-" ++ i.user_id) = "session-" ++ i.user_id from rfl]
    rw [getKey?_setKey_self]
    rfl

/-- Claim C10: `summary` (and likewise `freeze_account` and `reset_sessions`)
creates a fresh account entry for a previously unseen user as a side effect,
and on such a user `summary` returns `frozen = false`, no sessions, request
rate 0 and an empty recent sequence. -/
theorem C10_summary_creates_account (eng : RiskEngine) (u : String)
    (hacc : getKey? eng.accounts u = none)
    (hbeh : getKey? eng.behavior.profiles u = none)
    (hseq : getKey? eng.sequence_model.recent_paths u = none) :
    getKey? ((eng.summary u).2).accounts u = some { user_id := u } ∧
    (eng.summary u).1 = { frozen := false, active_sessions := [],
                          behavior_request_rate := 0, recent_sequence := [] } ∧
    (getKey? ((eng.freeze_account u).accounts) u).isSome = true ∧
    (getKey? ((eng.reset_sessions u).accounts) u).isSome = true := by
  have hgetD : getKeyD eng.accounts u { user_id := u } = { user_id := u } := by
    rw [getKeyD, hacc]; rfl
  refine ⟨?_, ?_, ?_, ?_⟩
  · show getKey? (setdefaultKey eng.accounts u { user_id := u }).2 u = _
    rw [getKey?_setdefaultKey_self, hgetD]
  · show ({ frozen := (setdefaultKey eng.accounts u { user_id := u }).1.frozen,
            active_sessions :=
              ((setdefaultKey eng.accounts u { user_id := u }).1.sessions).map (fun kv => kv.1),
            behavior_request_rate := eng.behavior.volume_summary u,
            recent_sequence := eng.sequence_model.recent_sequence u } : SummaryView) = _
    rw [setdefaultKey_fst, hgetD]
    unfold BehaviorAnomalyDetector.volume_summary APISequenceModel.recent_sequence
    rw [hbeh, getKeyD, hseq]
    rfl
  · show (getKey? (setKey (setdefaultKey eng.accounts u { user_id := u }).2 u _) u).isSome = true
    rw [getKey?_setKey_self]
    rfl
  · show (getKey? (setKey (setdefaultKey eng.accounts u { user_id := u }).2 u _) u).isSome = true
    rw [getKey?_setKey_self]
    rfl

/-- Claim C8: the identity fingerprint is the lowercase-hex SHA-256 of the
five pipe-joined fields and depends on nothing else, so any two identities
agreeing on those fields (whatever their session, roles, privileges or
timestamp) hash identically, deterministically. -/
theorem C8_fingerprint_determinism (id1 id2 : IdentityContext)
    (h1 : id1.device_id = id2.device_id) (h2 : id1.ip = id2.ip) (h3 : id1.geo = id2.geo)
    (h4 : id1.user_agent = id2.user_agent) (h5 : id1.user_id = id2.user_id) :
    IdentityFingerprinter.fingerprint id1 = IdentityFingerprinter.fingerprint id2 ∧
    IdentityFingerprinter.fingerprint id1 =
      sha256Hex (strBytes (id1.device_id ++ "|" ++ id1.ip ++ "|" ++ id1.geo ++ "|" ++
        id1.user_agent ++ "|" ++ id1.user_id)) := by
  constructor
  · unfold IdentityFingerprinter.fingerprint
    rw [h1, h2, h3, h4, h5]
  · rfl

theorem listDiff_ne_nil (x y : List String) :
    listDiff x y ≠ [] ↔ ∃ p ∈ x, p ∉ y := by
  unfold listDiff
  rw [Ne, List.filter_eq_nil_iff]
  push_neg
  constructor
  · rintro ⟨p, hp, hd⟩
    refine ⟨p, hp, ?_⟩
    simpa using hd
  · rintro ⟨p, hp, hd⟩
    refine ⟨p, hp, ?_⟩
    simpa using hd

theorem drift_cond_iff (recent : List PrivilegeChange) :
    listDiff ((recent.map (fun it => it.new_privileges)).flatten)
             ((recent.map (fun it => it.previous_privileges)).flatten) ≠ [] ↔
    ∃ item ∈ recent, ∃ p ∈ item.new_privileges,
      ∀ item' ∈ recent, p ∉ item'.previous_privileges := by
  rw [listDiff_ne_nil]
  constructor
  · rintro ⟨p, hpin, hpout⟩
    rw [List.mem_flatten] at hpin
    rcases hpin with ⟨l, hl, hpl⟩
    rcases List.mem_map.mp hl with ⟨item, hitem, rfl⟩
    refine ⟨item, hitem, p, hpl, fun item' hit' hmem => hpout ?_⟩
    rw [List.mem_flatten]
    exact ⟨item'.previous_privileges, List.mem_map.mpr ⟨item', hit', rfl⟩, hmem⟩
  · rintro ⟨item, hitem, p, hp, hall⟩
    refine ⟨p, ?_, fun hmem => ?_⟩
    · rw [List.mem_flatten]
      exact ⟨item.new_privileges, List.mem_map.mpr ⟨item, hitem, rfl⟩, hp⟩
    · rw [List.mem_flatten] at hmem
      rcases hmem with ⟨l, hl, hpl⟩
      rcases List.mem_map.mp hl with ⟨item', hit', rfl⟩
      exact hall item' hit' hpl

theorem drift_part_eq (m : PrivilegeMonitor) (hist : List PrivilegeChange) :
    (if hist.length ≥ m.drift_threshold then
       if listDiff ((takeLastPy m.drift_threshold hist).map (fun it => it.new_privileges)).flatten
            ((takeLastPy m.drift_threshold hist).map (fun it => it.previous_privileges)).flatten
            ≠ [] then
         [{ name := "privilege_drift", score := 20,
            detail := "Privileges drifted upward" : RiskSignal }]
       else []
     else []) =
    (if m.drift_threshold ≤ hist.length ∧
        ∃ item ∈ takeLastPy m.drift_threshold hist, ∃ p ∈ item.new_privileges,
          ∀ item' ∈ takeLastPy m.drift_threshold hist, p ∉ item'.previous_privileges then
       [{ name := "privilege_drift", score := 20,
          detail := "Privileges drifted upward" : RiskSignal }]
     else []) := by
  by_cases h1 : hist.length ≥ m.drift_threshold
  · rw [if_pos h1]
    by_cases h2 : listDiff
        ((takeLastPy m.drift_threshold hist).map (fun it => it.new_privileges)).flatten
        ((takeLastPy m.drift_threshold hist).map (fun it => it.previous_privileges)).flatten ≠ []
    · rw [if_pos h2, if_pos ⟨h1, (drift_cond_iff _).mp h2⟩]
    · rw [if_neg h2, if_neg (fun hc => h2 ((drift_cond_iff _).mpr hc.2))]
  · rw [if_neg h1, if_neg (fun hc => h1 hc.1)]

/-- Claim C5: one privilege-monitor call emits `privilege_escalation`
(score 35) exactly when a change is supplied whose new privileges exceed its
previous ones; the change is appended to the history before the drift check,
and `privilege_drift` (score 20) is additionally emitted exactly when the
history has reached the drift threshold and the union of new privileges over
the trailing window exceeds the union of previous ones — both signals can
fire on the same call. -/
theorem C5_privilege_monitor (m : PrivilegeMonitor) (a : AccountState)
    (c : Option PrivilegeChange) :
    ((m.assess a c).2).privilege_history =
      a.privilege_history ++ (match c with | none => [] | some cc => [cc]) ∧
    (m.assess a c).1 =
      (match c with
       | none => ([] : List RiskSignal)
       | some cc =>
         if ∃ p ∈ cc.new_privileges, p ∉ cc.previous_privileges then
           [{ name := "privilege_escalation", score := 35, detail := "Privileges added" }]
         else []) ++
      (if m.drift_threshold ≤ ((m.assess a c).2).privilege_history.length ∧
          ∃ item ∈ takeLastPy m.drift_threshold ((m.assess a c).2).privilege_history,
            ∃ p ∈ item.new_privileges,
              ∀ item' ∈ takeLastPy m.drift_threshold ((m.assess a c).2).privilege_history,
                p ∉ item'.previous_privileges then
         [{ name := "privilege_drift", score := 20, detail := "Privileges drifted upward" }]
       else []) := by
  refine ⟨privilege_assess_history m a c, ?_⟩
  have hL : (m.assess a c).1 =
      (match c with
       | none => ([] : List RiskSignal)
       | some cc =>
         if listDiff cc.new_privileges cc.previous_privileges ≠ [] then
           [{ name := "privilege_escalation", score := 35, detail := "Privileges added" }]
         else []) ++
      (if ((m.assess a c).2).privilege_history.length ≥ m.drift_threshold then
         if listDiff
              ((takeLastPy m.drift_threshold ((m.assess a c).2).privilege_history).map
                (fun it => it.new_privileges)).flatten
              ((takeLastPy m.drift_threshold ((m.assess a c).2).privilege_history).map
                (fun it => it.previous_privileges)).flatten ≠ [] then
           [{ name := "privilege_drift", score := 20, detail := "Privileges drifted upward" }]
         else []
       else []) := by
    rcases c with _ | cc <;> rfl
  rw [hL, drift_part_eq m ((m.assess a c).2).privilege_history]
  congr 1
  rcases c with _ | cc
  · rfl
  · exact if_congr (listDiff_ne_nil _ _) rfl rfl

theorem mem_optToList {α : Type} {o : Option α} {s : α} (h : s ∈ optToList o) :
    o = some s := by
  cases o with
  | none => simp [optToList] at h
  | some a =>
    simp only [optToList, List.mem_singleton] at h
    rw [h]

theorem optToList_map_name_sublist (o : Option RiskSignal) (ns : List String)
    (h : ∀ s, o = some s → s.name ∈ ns) :
    List.Sublist ((optToList o).map (fun s => s.name)) ns := by
  cases o with
  | none => simp [optToList]
  | some s =>
    simp only [optToList, List.map_cons, List.map_nil]
    exact List.singleton_sublist.mpr (h s rfl)

theorem count_map_name_eq_zero (l : List RiskSignal) (x : String)
    (h : ∀ s ∈ l, s.name ≠ x) : (l.map (fun s => s.name)).count x = 0 := by
  rw [List.count_eq_zero]
  intro hx
  rcases List.mem_map.mp hx with ⟨s, hs, hname⟩
  exact h s hs hname

theorem count_optToList_zero (o : Option RiskSignal) (x : String)
    (h : ∀ s, o = some s → s.name ≠ x) :
    ((optToList o).map (fun s => s.name)).count x = 0 :=
  count_map_name_eq_zero _ _ (fun s hs => h s (mem_optToList hs))

theorem optToList_pair_count (o : Option RiskSignal) (r e : String) (hne : r ≠ e) :
    ((optToList o).map (fun s => s.name)).count r +
      ((optToList o).map (fun s => s.name)).count e ≤ 1 := by
  cases o with
  | none => simp [optToList]
  | some s =>
    simp only [optToList, List.map_cons, List.map_nil]
    by_cases hr : s.name = r
    · rw [List.count_singleton', List.count_singleton']
      rw [if_pos hr, if_neg (by rw [hr]; exact hne)]
    · rw [List.count_singleton', List.count_singleton', if_neg hr]
      split <;> omega

theorem privilege_signal_name_mem (m : PrivilegeMonitor) (a : AccountState)
    (c : Option PrivilegeChange) (s : RiskSignal) (hs : s ∈ (m.assess a c).1) :
    s.name = "privilege_escalation" ∨ s.name = "privilege_drift" := by
  have hmem := (privilege_assess_parts m a c).subset
    (List.mem_map_of_mem (fun s => s.name) hs)
  simpa using hmem

theorem assessSignals_decomp (eng : RiskEngine) (i : IdentityContext) (e : ActivityEvent)
    (pc : Option PrivilegeChange) :
    RiskEngine.assessSignals eng i e pc =
      optToList ((eng.get_account i.user_id).2.fingerprinter.detect_multi_actor i).1 ++
      optToList ((eng.get_account i.user_id).2.behavior.assess i.user_id e).1 ++
      optToList ((eng.get_account i.user_id).2.sequence_model.score i.user_id e).1 ++
      optToList ((eng.get_account i.user_id).2.timing.assess e).1 ++
      ((eng.get_account i.user_id).2.privileges.assess
        ((eng.get_account i.user_id).1.update_session
          { session_id := pyOr i.session_id ("session-" ++ i.user_id),
            device_id := i.device_id, created_at := i.timestamp,
            last_seen := i.timestamp, ip := i.ip }) pc).1 ++
      optToList ((eng.get_account i.user_id).2.pivots.assess e).1 ++
      optToList ((eng.get_account i.user_id).2.graph.assess i.user_id i.ip i.device_id).1 ++
      optToList ((((eng.assess_stage i e pc).2.2.update_sequence i.user_id e).2).attack_predictor.score
        (((eng.assess_stage i e pc).2.2.update_sequence i.user_id e).1)) := rfl

/-- Claim C4: the signals list of every assessment is ordered exactly by the
fixed detector evaluation order (fingerprinter, behavior, sequence model,
timing, privileges, pivot, graph, attack predictor), each detector
contributing at most one signal except the privilege monitor, which
contributes at most two consecutive entries with escalation before drift;
in particular the behavior pair and the graph pair are mutually exclusive. -/
theorem C4_signal_order (eng : RiskEngine) (i : IdentityContext) (e : ActivityEvent)
    (pc : Option PrivilegeChange) :
    List.Sublist (((eng.assess_event i e pc).1.signals).map (fun s => s.name))
      canonicalSignalOrder ∧
    ((((eng.assess_event i e pc).1.signals).map (fun s => s.name)).count
        "behavior_rate_anomaly" +
      (((eng.assess_event i e pc).1.signals).map (fun s => s.name)).count
        "behavior_endpoint_anomaly") ≤ 1 ∧
    ((((eng.assess_event i e pc).1.signals).map (fun s => s.name)).count
        "shared_ip_risk" +
      (((eng.assess_event i e pc).1.signals).map (fun s => s.name)).count
        "device_sprawl") ≤ 1 := by
  rw [assess_event_fst]
  dsimp only
  rw [assessSignals_decomp]
  simp only [List.map_append, List.count_append]
  refine ⟨?_, ?_, ?_⟩
  · rw [show canonicalSignalOrder =
      ["multi_actor_detection"] ++
        ["behavior_rate_anomaly", "behavior_endpoint_anomaly"] ++
        ["api_sequence_anomaly"] ++ ["timing_anomaly"] ++
        ["privilege_escalation", "privilege_drift"] ++ ["microservice_pivot"] ++
        ["shared_ip_risk", "device_sprawl"] ++ ["ml_attack_prediction"] from rfl]
    refine List.Sublist.append (List.Sublist.append (List.Sublist.append
      (List.Sublist.append (List.Sublist.append (List.Sublist.append
        (List.Sublist.append ?_ ?_) ?_) ?_) ?_) ?_) ?_) ?_
    · exact optToList_map_name_sublist _ _
        (fun s hs => by rw [detect_multi_actor_name _ _ _ hs]; exact List.mem_singleton.mpr rfl)
    · exact optToList_map_name_sublist _ _
        (fun s hs => by rcases behavior_assess_name _ _ _ _ hs with hh | hh <;> simp [hh])
    · exact optToList_map_name_sublist _ _
        (fun s hs => by rw [sequence_score_name _ _ _ _ hs]; exact List.mem_singleton.mpr rfl)
    · exact optToList_map_name_sublist _ _
        (fun s hs => by rw [timing_assess_name _ _ _ hs]; exact List.mem_singleton.mpr rfl)
    · exact privilege_assess_parts _ _ _
    · exact optToList_map_name_sublist _ _
        (fun s hs => by rw [pivot_assess_name _ _ _ hs]; exact List.mem_singleton.mpr rfl)
    · exact optToList_map_name_sublist _ _
        (fun s hs => by rcases graph_assess_name _ _ _ _ _ hs with hh | hh <;> simp [hh])
    · exact optToList_map_name_sublist _ _
        (fun s hs => by rw [predictor_score_name _ _ _ hs]; exact List.mem_singleton.mpr rfl)
  · have z1r := count_optToList_zero ((eng.get_account i.user_id).2.fingerprinter.detect_multi_actor i).1
      "behavior_rate_anomaly" (fun s hs => by rw [detect_multi_actor_name _ _ _ hs]; decide)
    have z1e := count_optToList_zero ((eng.get_account i.user_id).2.fingerprinter.detect_multi_actor i).1
      "behavior_endpoint_anomaly" (fun s hs => by rw [detect_multi_actor_name _ _ _ hs]; decide)
    have z3r := count_optToList_zero ((eng.get_account i.user_id).2.sequence_model.score i.user_id e).1
      "behavior_rate_anomaly" (fun s hs => by rw [sequence_score_name _ _ _ _ hs]; decide)
    have z3e := count_optToList_zero ((eng.get_account i.user_id).2.sequence_model.score i.user_id e).1
      "behavior_endpoint_anomaly" (fun s hs => by rw [sequence_score_name _ _ _ _ hs]; decide)
    have z4r := count_optToList_zero ((eng.get_account i.user_id).2.timing.assess e).1
      "behavior_rate_anomaly" (fun s hs => by rw [timing_assess_name _ _ _ hs]; decide)
    have z4e := count_optToList_zero ((eng.get_account i.user_id).2.timing.assess e).1
      "behavior_endpoint_anomaly" (fun s hs => by rw [timing_assess_name _ _ _ hs]; decide)
    have z5r := count_map_name_eq_zero ((eng.get_account i.user_id).2.privileges.assess
        ((eng.get_account i.user_id).1.update_session
          { session_id := pyOr i.session_id ("session-" ++ i.user_id),
            device_id := i.device_id, created_at := i.timestamp,
            last_seen := i.timestamp, ip := i.ip }) pc).1
      "behavior_rate_anomaly"
      (fun s hs => by rcases privilege_signal_name_mem _ _ _ _ hs with hh | hh <;>
        rw [hh] <;> decide)
    have z5e := count_map_name_eq_zero ((eng.get_account i.user_id).2.privileges.assess
        ((eng.get_account i.user_id).1.update_session
          { session_id := pyOr i.session_id ("session-" ++ i.user_id),
            device_id := i.device_id, created_at := i.timestamp,
            last_seen := i.timestamp, ip := i.ip }) pc).1
      "behavior_endpoint_anomaly"
      (fun s hs => by rcases privilege_signal_name_mem _ _ _ _ hs with hh | hh <;>
        rw [hh] <;> decide)
    have z6r := count_optToList_zero ((eng.get_account i.user_id).2.pivots.assess e).1
      "behavior_rate_anomaly" (fun s hs => by rw [pivot_assess_name _ _ _ hs]; decide)
    have z6e := count_optToList_zero ((eng.get_account i.user_id).2.pivots.assess e).1
      "behavior_endpoint_anomaly" (fun s hs => by rw [pivot_assess_name _ _ _ hs]; decide)
    have z7r := count_optToList_zero
      ((eng.get_account i.user_id).2.graph.assess i.user_id i.ip i.device_id).1
      "behavior_rate_anomaly"
      (fun s hs => by rcases graph_assess_name _ _ _ _ _ hs with hh | hh <;> rw [hh] <;> decide)
    have z7e := count_optToList_zero
      ((eng.get_account i.user_id).2.graph.assess i.user_id i.ip i.device_id).1
      "behavior_endpoint_anomaly"
      (fun s hs => by rcases graph_assess_name _ _ _ _ _ hs with hh | hh <;> rw [hh] <;> decide)
    have z8r := count_optToList_zero
      ((((eng.assess_stage i e pc).2.2.update_sequence i.user_id e).2).attack_predictor.score
        (((eng.assess_stage i e pc).2.2.update_sequence i.user_id e).1))
      "behavior_rate_anomaly" (fun s hs => by rw [predictor_score_name _ _ _ hs]; decide)
    have z8e := count_optToList_zero
      ((((eng.assess_stage i e pc).2.2.update_sequence i.user_id e).2).attack_predictor.score
        (((eng.assess_stage i e pc).2.2.update_sequence i.user_id e).1))
      "behavior_endpoint_anomaly" (fun s hs => by rw [predictor_score_name _ _ _ hs]; decide)
    have hp := optToList_pair_count ((eng.get_account i.user_id).2.behavior.assess i.user_id e).1
      "behavior_rate_anomaly" "behavior_endpoint_anomaly" (by decide)
    omega
  · have z1r := count_optToList_zero ((eng.get_account i.user_id).2.fingerprinter.detect_multi_actor i).1
      "shared_ip_risk" (fun s hs => by rw [detect_multi_actor_name _ _ _ hs]; decide)
    have z1e := count_optToList_zero ((eng.get_account i.user_id).2.fingerprinter.detect_multi_actor i).1
      "device_sprawl" (fun s hs => by rw [detect_multi_actor_name _ _ _ hs]; decide)
    have z2r := count_optToList_zero ((eng.get_account i.user_id).2.behavior.assess i.user_id e).1
      "shared_ip_risk"
      (fun s hs => by rcases behavior_assess_name _ _ _ _ hs with hh | hh <;> rw [hh] <;> decide)
    have z2e := count_optToList_zero ((eng.get_account i.user_id).2.behavior.assess i.user_id e).1
      "device_sprawl"
      (fun s hs => by rcases behavior_assess_name _ _ _ _ hs with hh | hh <;> rw [hh] <;> decide)
    have z3r := count_optToList_zero ((eng.get_account i.user_id).2.sequence_model.score i.user_id e).1
      "shared_ip_risk" (fun s hs => by rw [sequence_score_name _ _ _ _ hs]; decide)
    have z3e := count_optToList_zero ((eng.get_account i.user_id).2.sequence_model.score i.user_id e).1
      "device_sprawl" (fun s hs => by rw [sequence_score_name _ _ _ _ hs]; decide)
    have z4r := count_optToList_zero ((eng.get_account i.user_id).2.timing.assess e).1
      "shared_ip_risk" (fun s hs => by rw [timing_assess_name _ _ _ hs]; decide)
    have z4e := count_optToList_zero ((eng.get_account i.user_id).2.timing.assess e).1
      "device_sprawl" (fun s hs => by rw [timing_assess_name _ _ _ hs]; decide)
    have z5r := count_map_name_eq_zero ((eng.get_account i.user_id).2.privileges.assess
        ((eng.get_account i.user_id).1.update_session
          { session_id := pyOr i.session_id ("session-" ++ i.user_id),
            device_id := i.device_id, created_at := i.timestamp,
            last_seen := i.timestamp, ip := i.ip }) pc).1
      "shared_ip_risk"
      (fun s hs => by rcases privilege_signal_name_mem _ _ _ _ hs with hh | hh <;>
        rw [hh] <;> decide)
    have z5e := count_map_name_eq_zero ((eng.get_account i.user_id).2.privileges.assess
        ((eng.get_account i.user_id).1.update_session
          { session_id := pyOr i.session_id ("session-" ++ i.user_id),
            device_id := i.device_id, created_at := i.timestamp,
            last_seen := i.timestamp, ip := i.ip }) pc).1
      "device_sprawl"
      (fun s hs => by rcases privilege_signal_name_mem _ _ _ _ hs with hh | hh <;>
        rw [hh] <;> decide)
    have z6r := count_optToList_zero ((eng.get_account i.user_id).2.pivots.assess e).1
      "shared_ip_risk" (fun s hs => by rw [pivot_assess_name _ _ _ hs]; decide)
    have z6e := count_optToList_zero ((eng.get_account i.user_id).2.pivots.assess e).1
      "device_sprawl" (fun s hs => by rw [pivot_assess_name _ _ _ hs]; decide)
    have z8r := count_optToList_zero
      ((((eng.assess_stage i e pc).2.2.update_sequence i.user_id e).2).attack_predictor.score
        (((eng.assess_stage i e pc).2.2.update_sequence i.user_id e).1))
      "shared_ip_risk" (fun s hs => by rw [predictor_score_name _ _ _ hs]; decide)
    have z8e := count_optToList_zero
      ((((eng.assess_stage i e pc).2.2.update_sequence i.user_id e).2).attack_predictor.score
        (((eng.assess_stage i e pc).2.2.update_sequence i.user_id e).1))
      "device_sprawl" (fun s hs => by rw [predictor_score_name _ _ _ hs]; decide)
    have hp := optToList_pair_count
      ((eng.get_account i.user_id).2.graph.assess i.user_id i.ip i.device_id).1
      "shared_ip_risk" "device_sprawl" (by decide)
    omega

theorem assess_stage_no_ml (eng : RiskEngine) (i : IdentityContext) (e : ActivityEvent)
    (pc : Option PrivilegeChange) :
    ∀ s ∈ (eng.assess_stage i e pc).1, s.name ≠ "ml_attack_prediction" := by
  intro s hs
  rw [show (eng.assess_stage i e pc).1 =
      optToList ((eng.get_account i.user_id).2.fingerprinter.detect_multi_actor i).1 ++
      optToList ((eng.get_account i.user_id).2.behavior.assess i.user_id e).1 ++
      optToList ((eng.get_account i.user_id).2.sequence_model.score i.user_id e).1 ++
      optToList ((eng.get_account i.user_id).2.timing.assess e).1 ++
      ((eng.get_account i.user_id).2.privileges.assess
        ((eng.get_account i.user_id).1.update_session
          { session_id := pyOr i.session_id ("session-" ++ i.user_id),
            device_id := i.device_id, created_at := i.timestamp,
            last_seen := i.timestamp, ip := i.ip }) pc).1 ++
      optToList ((eng.get_account i.user_id).2.pivots.assess e).1 ++
      optToList ((eng.get_account i.user_id).2.graph.assess i.user_id i.ip i.device_id).1
      from rfl] at hs
  simp only [List.mem_append] at hs
  rcases hs with ((((((h | h) | h) | h) | h) | h) | h)
  · rw [detect_multi_actor_name _ _ _ (mem_optToList h)]; decide
  · rcases behavior_assess_name _ _ _ _ (mem_optToList h) with hh | hh <;> rw [hh] <;> decide
  · rw [sequence_score_name _ _ _ _ (mem_optToList h)]; decide
  · rw [timing_assess_name _ _ _ (mem_optToList h)]; decide
  · rcases privilege_signal_name_mem _ _ _ _ h with hh | hh <;> rw [hh] <;> decide
  · rw [pivot_assess_name _ _ _ (mem_optToList h)]; decide
  · rcases graph_assess_name _ _ _ _ _ (mem_optToList h) with hh | hh <;> rw [hh] <;> decide

/-- Claim C6 (amended): within one `assess_event` call the per-user
recent-sequence queue is updated (FIFO append of the current event, with the
conditional baseline feed) BEFORE the attack predictor scores, so the
predictor signal present in the assessment is exactly the score of the
updated queue, which already contains the current event. -/
theorem C6_queue_update_order (eng : RiskEngine) (i : IdentityContext) (e : ActivityEvent)
    (pc : Option PrivilegeChange) :
    (((eng.assess_event i e pc).1.signals).filter
        (fun s => s.name == "ml_attack_prediction")) =
      optToList ((((eng.assess_stage i e pc).2.2.update_sequence i.user_id e).2).attack_predictor.score
        (((eng.assess_stage i e pc).2.2.update_sequence i.user_id e).1)) ∧
    ((eng.assess_stage i e pc).2.2.update_sequence i.user_id e).1 =
      (if (getKeyD eng.recent_sequences i.user_id [] ++ [e]).length >
          eng.config.sequence_window
       then (getKeyD eng.recent_sequences i.user_id [] ++ [e]).tail
       else getKeyD eng.recent_sequences i.user_id [] ++ [e]) := by
  constructor
  · rw [assess_event_fst]
    dsimp only
    rw [show RiskEngine.assessSignals eng i e pc = (eng.assess_stage i e pc).1 ++
        optToList ((((eng.assess_stage i e pc).2.2.update_sequence i.user_id e).2).attack_predictor.score
          (((eng.assess_stage i e pc).2.2.update_sequence i.user_id e).1)) from rfl]
    rw [List.filter_append]
    have h7 : ((eng.assess_stage i e pc).1).filter
        (fun s => s.name == "ml_attack_prediction") = [] := by
      rw [List.filter_eq_nil_iff]
      intro s hs
      simpa using assess_stage_no_ml eng i e pc s hs
    rw [h7, List.nil_append]
    cases hsc : (((eng.assess_stage i e pc).2.2.update_sequence i.user_id e).2).attack_predictor.score
        (((eng.assess_stage i e pc).2.2.update_sequence i.user_id e).1) with
    | none => simp [hsc, optToList]
    | some s =>
      have hname := predictor_score_name _ _ _ hsc
      simp [hsc, optToList, List.filter, hname]
  · rfl

theorem counterIncr_get (c : List (String × Int)) (k s : String) :
    getKeyD (counterIncr c k) s 0 = getKeyD c s 0 + (if s = k then 1 else 0) := by
  unfold counterIncr
  by_cases hs : s = k
  · subst hs
    rw [getKeyD, getKey?_setKey_self, if_pos rfl]
    rfl
  · rw [getKeyD, getKey?_setKey_ne _ _ _ _ hs, if_neg hs]
    rw [getKeyD]
    omega

theorem counterDecrDel_get (c : List (String × Int)) (k s : String)
    (hpos : 1 ≤ getKeyD c k 0) :
    getKeyD (counterDecrDel c k) s 0 = getKeyD c s 0 - (if s = k then 1 else 0) := by
  unfold counterDecrDel
  dsimp only
  by_cases hv : getKeyD c k 0 - 1 ≤ 0
  · rw [if_pos hv]
    by_cases hs : s = k
    · subst hs
      rw [getKeyD, getKey?_popKey_self, if_pos rfl]
      show (0 : Int) = getKeyD c s 0 - 1
      omega
    · rw [getKeyD, getKey?_popKey_ne _ _ _ hs, getKey?_setKey_ne _ _ _ _ hs, if_neg hs]
      rw [getKeyD]
      omega
  · rw [if_neg hv]
    by_cases hs : s = k
    · subst hs
      rw [getKeyD, getKey?_setKey_self, if_pos rfl]
      rfl
    · rw [getKeyD, getKey?_setKey_ne _ _ _ _ hs, if_neg hs]
      rw [getKeyD]
      omega

theorem countIn_cons (e : ActivityEvent) (rest : List ActivityEvent) (s : String) :
    ((((e :: rest).filter (fun ev => ev.endpoint = s)).length : Int)) =
      (((rest.filter (fun ev => ev.endpoint = s)).length : Int)) +
        (if s = e.endpoint then 1 else 0) := by
  rw [List.filter_cons]
  by_cases hs : e.endpoint = s
  · rw [if_pos (by simpa using hs), if_pos hs.symm]
    simp
  · rw [if_neg (by simpa using hs), if_neg (fun hh => hs hh.symm)]
    omega

theorem countIn_append_one (es : List ActivityEvent) (ev : ActivityEvent) (s : String) :
    (((es ++ [ev]).filter (fun e => e.endpoint = s)).length : Int) =
      ((es.filter (fun e => e.endpoint = s)).length : Int) +
        (if s = ev.endpoint then 1 else 0) := by
  rw [List.filter_append, List.length_append, List.filter_cons, List.filter_nil]
  by_cases hs : ev.endpoint = s
  · rw [if_pos (by simpa using hs), if_pos hs.symm]
    simp
  · rw [if_neg (by simpa using hs), if_neg (fun hh => hs hh.symm)]
    simp

theorem trimLoop_counter (w now : ℚ) :
    ∀ (evs : List ActivityEvent) (c : List (String × Int)),
    (∀ s, getKeyD c s 0 = ((evs.filter (fun ev => ev.endpoint = s)).length : Int)) →
    ∀ s, getKeyD (trimLoop w now evs c).2 s 0 =
      (((trimLoop w now evs c).1.filter (fun ev => ev.endpoint = s)).length : Int) := by
  intro evs
  induction evs with
  | nil =>
    intro c h s
    rw [trimLoop]
    exact h s
  | cons e rest ih =>
    intro c h s
    rw [trimLoop]
    by_cases hc : now - e.timestamp > w
    · rw [if_pos hc]
      apply ih
      intro s'
      have hpos : 1 ≤ getKeyD c e.endpoint 0 := by
        rw [h e.endpoint, countIn_cons, if_pos rfl]
        have : (0 : Int) ≤ ((rest.filter (fun ev => ev.endpoint = e.endpoint)).length : Int) := by
          positivity
        omega
      rw [counterDecrDel_get c e.endpoint s' hpos, h s', countIn_cons]
      omega
    · rw [if_neg hc]
      exact h s

theorem observe_counter (p : BehaviorProfile) (ev : ActivityEvent)
    (h : ∀ s, getKeyD p.endpoint_counter s 0 =
      ((p.events.filter (fun e => e.endpoint = s)).length : Int)) :
    ∀ s, getKeyD ((p.observe ev).endpoint_counter) s 0 =
      (((p.observe ev).events.filter (fun e => e.endpoint = s)).length : Int) := by
  unfold BehaviorProfile.observe
  dsimp only
  apply trimLoop_counter
  intro s
  rw [counterIncr_get, countIn_append_one, h s]

theorem observeList_counter (es : List ActivityEvent) :
    ∀ (p : BehaviorProfile),
    (∀ s, getKeyD p.endpoint_counter s 0 =
      ((p.events.filter (fun e => e.endpoint = s)).length : Int)) →
    ∀ s, getKeyD ((observeList p es).endpoint_counter) s 0 =
      (((observeList p es).events.filter (fun e => e.endpoint = s)).length : Int) := by
  induction es with
  | nil => intro p h; exact h
  | cons e rest ih =>
    intro p h
    show ∀ s, getKeyD ((observeList (p.observe e) rest).endpoint_counter) s 0 = _
    exact ih (p.observe e) (observe_counter p e h)

theorem trimLoop_suffix (w now : ℚ) :
    ∀ (evs : List ActivityEvent) (c : List (String × Int)),
    List.IsSuffix (trimLoop w now evs c).1 evs := by
  intro evs
  induction evs with
  | nil => intro c; exact List.suffix_rfl
  | cons e rest ih =>
    intro c
    by_cases hc : now - e.timestamp > w
    · have heq : trimLoop w now (e :: rest) c =
          trimLoop w now rest (counterDecrDel c e.endpoint) := by
        rw [trimLoop, if_pos hc]
      rw [heq]
      exact (ih _).trans (List.suffix_cons e rest)
    · have heq : trimLoop w now (e :: rest) c = (e :: rest, c) := by
        rw [trimLoop, if_neg hc]
      rw [heq]

theorem trimLoop_head_fresh (w now : ℚ) :
    ∀ (evs : List ActivityEvent) (c : List (String × Int)) (x : ActivityEvent)
      (xs : List ActivityEvent),
    (trimLoop w now evs c).1 = x :: xs → now - x.timestamp ≤ w := by
  intro evs
  induction evs with
  | nil =>
    intro c x xs hres
    rw [trimLoop] at hres
    exact absurd hres (by simp)
  | cons e rest ih =>
    intro c x xs hres
    rw [trimLoop] at hres
    by_cases hc : now - e.timestamp > w
    · rw [if_pos hc] at hres
      exact ih _ x xs hres
    · rw [if_neg hc] at hres
      obtain ⟨rfl, -⟩ : e = x ∧ rest = xs := by
        constructor <;> [exact (List.cons.injEq _ _ _ _ ▸ hres).1;
          exact (List.cons.injEq _ _ _ _ ▸ hres).2]
      exact le_of_not_lt hc

theorem observe_sorted_inv (p : BehaviorProfile) (ev : ActivityEvent) (t : ℚ)
    (hsorted : p.events.Pairwise (fun a b => a.timestamp ≤ b.timestamp))
    (hub : ∀ x ∈ p.events, x.timestamp ≤ t) (hle : t ≤ ev.timestamp) :
    (p.observe ev).events.Pairwise (fun a b => a.timestamp ≤ b.timestamp) ∧
    (∀ x ∈ (p.observe ev).events, x.timestamp ≤ ev.timestamp) ∧
    (∀ x ∈ (p.observe ev).events, ev.timestamp - x.timestamp ≤ p.window) := by
  have hsorted0 : (p.events ++ [ev]).Pairwise (fun a b => a.timestamp ≤ b.timestamp) := by
    rw [List.pairwise_append]
    refine ⟨hsorted, List.pairwise_singleton _ _, ?_⟩
    intro a ha b hb
    rw [List.mem_singleton] at hb
    subst hb
    exact le_trans (hub a ha) hle
  have hsuffix : List.IsSuffix ((p.observe ev).events) (p.events ++ [ev]) := by
    unfold BehaviorProfile.observe
    dsimp only
    exact trimLoop_suffix _ _ _ _
  have hsub : List.Sublist ((p.observe ev).events) (p.events ++ [ev]) := hsuffix.sublist
  have hsorted' : (p.observe ev).events.Pairwise (fun a b => a.timestamp ≤ b.timestamp) :=
    hsorted0.sublist hsub
  have hub' : ∀ x ∈ (p.observe ev).events, x.timestamp ≤ ev.timestamp := by
    intro x hx
    have hx0 : x ∈ p.events ++ [ev] := hsub.subset hx
    rw [List.mem_append] at hx0
    rcases hx0 with hx0 | hx0
    · exact le_trans (hub x hx0) hle
    · rw [List.mem_singleton] at hx0
      subst hx0
      exact le_refl _
  refine ⟨hsorted', hub', ?_⟩
  intro x hx
  cases hres : (p.observe ev).events with
  | nil => rw [hres] at hx; exact absurd hx (by simp)
  | cons x0 xs =>
    have hhead : ev.timestamp - x0.timestamp ≤ p.window := by
      have : (trimLoop p.window ev.timestamp (p.events ++ [ev])
          (counterIncr p.endpoint_counter ev.endpoint)).1 = x0 :: xs := hres
      exact trimLoop_head_fresh _ _ _ _ _ _ this
    rw [hres] at hx hsorted'
    rcases List.mem_cons.mp hx with rfl | hx'
    · exact hhead
    · have hx0le : x0.timestamp ≤ x.timestamp :=
        (List.pairwise_cons.mp hsorted').1 x hx'
      linarith

theorem observe_window (p : BehaviorProfile) (ev : ActivityEvent) :
    (p.observe ev).window = p.window := rfl

theorem observeList_window (es : List ActivityEvent) :
    ∀ p : BehaviorProfile, (observeList p es).window = p.window := by
  induction es with
  | nil => intro p; rfl
  | cons e rest ih =>
    intro p
    show (observeList (p.observe e) rest).window = p.window
    rw [ih (p.observe e), observe_window]

theorem observeList_inv (es : List ActivityEvent) :
    ∀ (p : BehaviorProfile) (t : ℚ),
    es.Pairwise (fun a b => a.timestamp ≤ b.timestamp) →
    (∀ x ∈ es, t ≤ x.timestamp) →
    p.events.Pairwise (fun a b => a.timestamp ≤ b.timestamp) →
    (∀ x ∈ p.events, x.timestamp ≤ t) →
    (∀ x ∈ p.events, t - x.timestamp ≤ p.window) →
    ∃ t', (observeList p es).events.Pairwise (fun a b => a.timestamp ≤ b.timestamp) ∧
      (∀ x ∈ (observeList p es).events, x.timestamp ≤ t') ∧
      (∀ x ∈ (observeList p es).events, t' - x.timestamp ≤ p.window) := by
  induction es with
  | nil =>
    intro p t _ _ hps hub hfresh
    exact ⟨t, hps, hub, hfresh⟩
  | cons e rest ih =>
    intro p t hsorted hlow hps hub hfresh
    obtain ⟨hse, hsr⟩ := List.pairwise_cons.mp hsorted
    have hle : t ≤ e.timestamp := hlow e (List.mem_cons_self e rest)
    obtain ⟨h1, h2, h3⟩ := observe_sorted_inv p e t hps hub hle
    have hres := ih (p.observe e) e.timestamp hsr
      (fun x hx => hse x hx) h1 h2 (by rw [observe_window]; exact h3)
    rw [observe_window] at hres
    exact hres

theorem assess_profile_step (d : BehaviorAnomalyDetector) (u : String) (e : ActivityEvent) :
    getKeyD ((d.assess u e).2).profiles u { window := d.window } =
      (getKeyD d.profiles u { window := d.window }).observe e := by
  unfold BehaviorAnomalyDetector.assess
  dsimp only
  rw [getKeyD, getKey?_setKey_self, Option.getD_some, setdefaultKey_fst]

theorem assess_detector_window (d : BehaviorAnomalyDetector) (u : String) (e : ActivityEvent) :
    ((d.assess u e).2).window = d.window := rfl

theorem assessList_profile (u : String) (es : List ActivityEvent) :
    ∀ d : BehaviorAnomalyDetector,
    getKeyD ((d.assessList u es).profiles) u { window := d.window } =
      observeList (getKeyD d.profiles u { window := d.window }) es := by
  induction es with
  | nil => intro d; rfl
  | cons e rest ih =>
    intro d
    show getKeyD ((((d.assess u e).2).assessList u rest).profiles) u { window := d.window } = _
    rw [show ({ window := d.window } : BehaviorProfile) =
      { window := ((d.assess u e).2).window } from rfl]
    rw [ih ((d.assess u e).2)]
    rw [show ({ window := ((d.assess u e).2).window } : BehaviorProfile) =
      { window := d.window } from rfl]
    rw [assess_profile_step]
    rfl

theorem behaviorProfileAfter_eq (w : ℚ) (user : String) (es : List ActivityEvent) :
    behaviorProfileAfter w user es = observeList { window := w } es := by
  unfold behaviorProfileAfter
  rw [show ({ window := w } : BehaviorProfile) =
    { window := (({ window := w } : BehaviorAnomalyDetector)).window } from rfl]
  rw [assessList_profile user es { window := w }]
  rfl

/-- Claim C7 (amended): for timestamp-nondecreasing input sequences, after any
number of behavior assess calls for a user no event more than
`behavior_window` older than any other event in the profile's window — in
particular the newest — remains, and the endpoint multiset agrees exactly
with the events left in the window.  (For non-monotone inputs the source
keeps stale events; see the counterexample.) -/
theorem C7_window_integrity (w : ℚ) (user : String) (es : List ActivityEvent)
    (hsorted : es.Pairwise (fun a b => a.timestamp ≤ b.timestamp)) :
    (∀ x ∈ (behaviorProfileAfter w user es).events,
      ∀ y ∈ (behaviorProfileAfter w user es).events,
        y.timestamp - x.timestamp ≤ w) ∧
    (∀ s, getKeyD (behaviorProfileAfter w user es).endpoint_counter s 0 =
      (((behaviorProfileAfter w user es).events.filter
        (fun ev => ev.endpoint = s)).length : Int)) := by
  rw [behaviorProfileAfter_eq]
  constructor
  · cases es with
    | nil =>
      intro x hx
      exact absurd hx (by simp [observeList])
    | cons e rest =>
      obtain ⟨hse, hsr⟩ := List.pairwise_cons.mp hsorted
      have hlow : ∀ x ∈ e :: rest, e.timestamp ≤ x.timestamp := by
        intro x hx
        rcases List.mem_cons.mp hx with rfl | hx'
        · exact le_refl _
        · exact hse x hx'
      obtain ⟨t', hsort', hub', hfresh'⟩ := observeList_inv (e :: rest)
        { window := w } e.timestamp hsorted hlow (by simp) (by simp) (by simp)
      intro x hx y hy
      have h1 := hub' y hy
      have h2 := hfresh' x hx
      dsimp only at h2
      linarith
  · exact observeList_counter es { window := w } (fun s => rfl)

/-- Claim C1 (counterexample): on the S1 input the source engine does NOT
return the single `privilege_escalation` signal with total 35 and action
`monitor` that the claim expects. -/
theorem C1_claim_counterexample :
    ¬ (((engDefault.assess_event idS1 evS1 (some pcS1)).1.signals.map
          (fun s => (s.name, s.score))) = [("privilege_escalation", 35)] ∧
       (engDefault.assess_event idS1 evS1 (some pcS1)).1.total_score = 35 ∧
       (engDefault.assess_event idS1 evS1 (some pcS1)).1.action = "monitor") :=
  of_decide_eq_true (by with_unfolding_all rfl)

/-- Claim C1 (amended): on the S1 input a fresh default engine emits TWO
signals — `behavior_rate_anomaly` with score 40 (the first event of a fresh
profile makes the request rate surge from 0 to 1, surge = 100 > 2) followed
by `privilege_escalation` with score 35 — for a total of 75, action
`force_logout` with the session invalidated and the account not frozen. -/
theorem C1_first_event_assessment :
    ((engDefault.assess_event idS1 evS1 (some pcS1)).1.signals.map
        (fun s => (s.name, s.score))) =
      [("behavior_rate_anomaly", 40), ("privilege_escalation", 35)] ∧
    (engDefault.assess_event idS1 evS1 (some pcS1)).1.total_score = 75 ∧
    (engDefault.assess_event idS1 evS1 (some pcS1)).1.action = "force_logout" ∧
    (engDefault.assess_event idS1 evS1 (some pcS1)).1.account_frozen = false ∧
    (engDefault.assess_event idS1 evS1 (some pcS1)).1.session_invalidated = true :=
  of_decide_eq_true (by with_unfolding_all rfl)

set_option maxRecDepth 2000 in
/-- Claim C6 (counterexample): with a predictor bootstrapped on one empty
baseline, the source `assess_event` emits `ml_attack_prediction` (score 30)
computed on the queue that already contains the current event, while the
spec-ordered variant — scoring the queue as it stood before the event was
appended — emits no predictor signal, so the two assessments differ. -/
theorem C6_claim_counterexample :
    ((engBoot.assess_event idC6 evC6 none).1.signals.map (fun s => (s.name, s.score)) =
      [("behavior_rate_anomaly", 40), ("ml_attack_prediction", 30)]) ∧
    ((engBoot.assess_event_specOrder idC6 evC6 none).1.signals.map
        (fun s => (s.name, s.score)) = [("behavior_rate_anomaly", 40)]) ∧
    ¬ ((engBoot.assess_event idC6 evC6 none).1 =
       (engBoot.assess_event_specOrder idC6 evC6 none).1) :=
  of_decide_eq_true (by with_unfolding_all rfl)

set_option maxRecDepth 2000 in
/-- Claim C7 (counterexample): with non-monotone timestamps the window keeps
a stale event — after the behavior detector assesses an event at t = 200000
and then one at t = 0 with a 86400-second window, both events remain in the
user's profile although they are 200000 seconds apart. -/
theorem C7_claim_counterexample :
    (behaviorProfileAfter 86400 "u" [e1C7, e2C7]).events = [e1C7, e2C7] ∧
    e1C7.timestamp - e2C7.timestamp > 86400 := by
  constructor
  · rw [behaviorProfileAfter_eq]
    with_unfolding_all rfl
  · exact of_decide_eq_true (by with_unfolding_all rfl)

/-- Witness for C2 at the S1 input with the default (ordered) thresholds. -/
theorem C2_action_selection_witness :
    (engDefault.assess_event idS1 evS1 (some pcS1)).1.action = "force_logout" ↔
      (engDefault.config.medium_risk_threshold ≤
        (engDefault.assess_event idS1 evS1 (some pcS1)).1.total_score ∧
       (engDefault.assess_event idS1 evS1 (some pcS1)).1.total_score <
        engDefault.config.high_risk_threshold) :=
  (C2_action_selection engDefault idS1 evS1 (some pcS1)
    (of_decide_eq_true (by with_unfolding_all rfl))).2.1

/-- Witness for C3: freeze a user, run a reset and a summary, and the
summary still reports the account frozen. -/
theorem C3_frozen_monotonic_witness :
    ((engDefault.freeze_account "u").runOps
        [EngineOp.reset "u", EngineOp.summarize "u"]).frozenOf "u" = true ∧
    ((((engDefault.freeze_account "u").runOps
        [EngineOp.reset "u", EngineOp.summarize "u"]).summary "u").1).frozen = true :=
  (C3_frozen_monotonic (engDefault.freeze_account "u") "u"
    [EngineOp.reset "u", EngineOp.summarize "u"]
    (by with_unfolding_all rfl)).1

/-- Witness for C7 on a sorted one-event input. -/
theorem C7_window_integrity_witness :
    getKeyD (behaviorProfileAfter 86400 "u" [eW7]).endpoint_counter "/x" 0 =
      (((behaviorProfileAfter 86400 "u" [eW7]).events.filter
        (fun ev => ev.endpoint = "/x")).length : Int) :=
  (C7_window_integrity 86400 "u" [eW7] (List.pairwise_singleton _ _)).2 "/x"

/-- Witness for C8: two identities differing in session, roles, privileges
and timestamp but agreeing on the five hashed fields fingerprint equally. -/
theorem C8_fingerprint_determinism_witness :
    IdentityFingerprinter.fingerprint idW1 = IdentityFingerprinter.fingerprint idW2 :=
  (C8_fingerprint_determinism idW1 idW2 rfl rfl rfl rfl rfl).1

/-- Witness for C9 at the S1 input, whose action is `force_logout`. -/
theorem C9_force_logout_sessions_witness :
    (engDefault.assess_event idS1 evS1 (some pcS1)).1.session_invalidated = true :=
  (C9_force_logout_sessions engDefault idS1 evS1 (some pcS1)
    (by with_unfolding_all rfl)).1

/-- Witness for C10 on a fresh engine and unseen user. -/
theorem C10_summary_creates_account_witness :
    getKey? ((engDefault.summary "w10").2).accounts "w10" = some { user_id := "w10" } :=
  (C10_summary_creates_account engDefault "w10" rfl rfl rfl).1
